import Mathlib

/-!
Verification of the GPSD JSON refclock driver (ntpd/refclock_gpsd.c) and the
surrounding daemon plumbing of the NTPsec repository.

The C sources are shallowly embedded: machine integers become Nat/Int with
explicit reductions modulo 2^w where the C type wraps, the 64-bit fixed-point
l_fp type becomes a Nat holding the 64-bit pattern, C strings become lists of
characters (or of raw bytes where signedness of char matters), and the
stateful driver unit (struct gpsd_unit together with the two refclockproc
blocks it serves) becomes an explicit record threaded through the transition
functions.  External collaborators (the jsmn tokenizer, libc, the refclock
core entry refclock_process_offset, and the socket layer) appear as explicit
inputs or as event outputs, so every embedded function is a total, executable
Lean function.
-/

namespace GpsdJson

/-! ## Basic constants from the driver source -/

/-- MODE_OP_IBT: serial in-band-time operation mode. -/
def MODE_OP_IBT : Nat := 0

/-- MODE_OP_STRICT: only feed when a valid IBT/PPS pair is available. -/
def MODE_OP_STRICT : Nat := 1

/-- MODE_OP_AUTO: IBT/PPS with fallback hysteresis. -/
def MODE_OP_AUTO : Nat := 2

/-- MAX_PDU_LEN: size of the record assembly buffer. -/
def MAX_PDU_LEN : Nat := 8192

/-- TICKOVER_LOW: the short timeout preset. -/
def TICKOVER_LOW : Nat := 10

/-- TICKOVER_HIGH: the maximal timeout preset. -/
def TICKOVER_HIGH : Nat := 120

/-- LOGTHROTTLE = SECSPERHR: seconds a unit waits between throttled logs. -/
def LOGTHROTTLE : Nat := 3600

/-- PPS_MAXCOUNT: upper limit of the PPS credit account. -/
def PPS_MAXCOUNT : Int := 60

/-- PPS_INCCOUNT: credit for a good PPS sample. -/
def PPS_INCCOUNT : Int := 3

/-- PPS_DECCOUNT: debit for a bad or missing PPS sample. -/
def PPS_DECCOUNT : Int := 1

/-- PPS2_MAXCOUNT: counter ceiling of the secondary PPS channel. -/
def PPS2_MAXCOUNT : Int := 10

/-- CLK_FLAG1 bit of sloppyclockflag. -/
def CLK_FLAG1 : Nat := 1

/-- CLK_FLAG2 bit of sloppyclockflag. -/
def CLK_FLAG2 : Nat := 2

/-- CLK_FLAG3 bit of sloppyclockflag. -/
def CLK_FLAG3 : Nat := 4

/-- CLK_FLAG4 bit of sloppyclockflag. -/
def CLK_FLAG4 : Nat := 8

/-- CEVNT_NOMINAL refclock event code. -/
def CEVNT_NOMINAL : Nat := 0

/-- CEVNT_TIMEOUT refclock event code. -/
def CEVNT_TIMEOUT : Nat := 1

/-- CEVNT_BADREPLY refclock event code. -/
def CEVNT_BADREPLY : Nat := 2

/-- CEVNT_FAULT refclock event code. -/
def CEVNT_FAULT : Nat := 3

/-- PRECISION: default serial precision (about 2 ms). -/
def PRECISION : Int := -9

/-- PPS_PRECISION: default PPS precision (about 1 us). -/
def PPS_PRECISION : Int := -20

/-- PROTO_VERSION(hi,lo) packs a protocol version into 32 bits. -/
def PROTO_VERSION (hi lo : Nat) : Nat :=
  ((hi <<< 16) &&& 0xFFFF0000) ||| (lo &&& 0xFFFF)

/-! ## The json_int parser strtojint

The C function parses a signed decimal integer over 64-bit arithmetic
(json_int = signed long, json_uint = unsigned long, both 64 bits wide on the
supported platforms).  Overflow of the unsigned accumulator is reduced modulo
2^64 exactly as in C; the overflow FLAG is computed before and after each
step just as in the source. -/

/-- JSON_INT_MAX = LONG_MAX on a 64-bit platform. -/
def JSON_INT_MAX : Nat := 2 ^ 63 - 1

/-- Magnitude limit used for the negative branch: (json_uint)-(LONG_MIN+1)+1. -/
def NEG_LIMIT : Nat := 2 ^ 63

/-- The 64-bit wrap modulus of json_uint arithmetic. -/
def U64 : Nat := 2 ^ 64

/-- The two errno values strtojint can set.  A result of none means errno is
left untouched, exactly like the C code which only ever assigns errno. -/
inductive CErr where
  | einval : CErr
  | erange : CErr
  deriving Repr, DecidableEq

/-- Numeric value of an ASCII digit character. -/
def digitVal (c : Char) : Nat := c.toNat - 48

/-- The digit loop of strtojint: state is the unsigned accumulator (wrapped
modulo 2^64 as json_uint does) and the overflow bit of flags.  limitHi is the
maximal representable magnitude for the current sign.  Returns the final
accumulator, the overflow flag and the unconsumed rest of the input. -/
def sjLoop (limitHi : Nat) : List Char → Nat → Bool → Nat × Bool × List Char
  | [], accu, ovf => (accu, ovf, [])
  | c :: cs, accu, ovf =>
    if c.isDigit then
      let ovf1 := ovf || decide (accu > limitHi / 10)
      let accu1 := (accu * 10 + digitVal c) % U64
      let ovf2 := ovf1 || decide (accu1 > limitHi)
      sjLoop limitHi cs accu1 ovf2
    else (accu, ovf, c :: cs)

/-- Sign handling at the head of strtojint: eat an optional sign, report
whether the number is negative together with the rest of the input. -/
def sjSign : List Char → Bool × List Char
  | '-' :: r => (true, r)
  | '+' :: r => (false, r)
  | r => (false, r)

/-- strtojint from refclock_gpsd.c: parse a signed decimal integer, base 10,
no whitespace skipping.  Result: the parsed value, the unconsumed rest of the
input (the end pointer; equal to the whole original input when no digits were
seen), and the errno effect. -/
def strtojint (s : List Char) : Int × List Char × Option CErr :=
  let sg := sjSign s
  let neg := sg.1
  let cp := sg.2
  let limitHi : Nat := if neg then NEG_LIMIT else JSON_INT_MAX
  if (cp.head?.map Char.isDigit).getD false then
    let r := sjLoop limitHi cp 0 false
    let accu := r.1
    let ovf := r.2.1
    let rest := r.2.2
    let val : Nat := if ovf then limitHi else accu
    let err : Option CErr := if ovf then some CErr.erange else none
    let ret : Int := if neg && val ≠ 0 then -(((val - 1 : Nat) : Int)) - 1 else (val : Int)
    (ret, rest, err)
  else
    (0, s, some CErr.einval)

/-- Mathematical base-10 value of a digit list, continuing from accumulator a. -/
def natValFrom (a : Nat) (ds : List Char) : Nat :=
  ds.foldl (fun x c => x * 10 + digitVal c) a

/-- Mathematical value of the maximal digit prefix of a string. -/
def decVal (cs : List Char) : Nat :=
  natValFrom 0 (cs.takeWhile Char.isDigit)

/-! ## The 64-bit fixed point type l_fp

An l_fp is a 64-bit pattern: the upper 32 bits are the (wrapping) seconds
field, the lower 32 bits the fraction.  We keep the raw pattern as a Nat and
perform all arithmetic modulo 2^64, exactly as the C operations do. -/

/-- Wrap modulus of the 32-bit seconds field. -/
def U32 : Nat := 2 ^ 32

/-- l_fp subtraction, two-complement wrap-around on 64 bits. -/
def lfpSub (a b : Nat) : Nat := (a % U64 + (U64 - b % U64)) % U64

/-- l_fp addition of a raw 64-bit increment. -/
def lfpAdd (a b : Nat) : Nat := (a + b) % U64

/-- lfpsint: the seconds field interpreted as a signed 32-bit integer. -/
def lfpsint (x : Nat) : Int :=
  let s := x / U32 % U32
  if s < 2 ^ 31 then (s : Int) else (s : Int) - (U32 : Int)

/-- setlfpfrac(x, 0): clear the fraction bits. -/
def setlfpfrac0 (x : Nat) : Nat := x % U64 / U32 * U32

/-- Seconds between the NTP era start (1900) and the Unix epoch (1970). -/
def JAN_1970 : Nat := 2208988800

/-- Fraction bits corresponding to a nanosecond count below 10^9. -/
def fracOfNsec (nsec : Nat) : Nat := nsec * U32 / 1000000000

/-- Modelled from the spec: tspec_stamp_to_lfp of libntp/timespecops (the
libntp sources are not under src/).  A Unix timespec becomes the fixed-point
timestamp of the spec data model: seconds shifted to the NTP era, wrapped to
32 bits, with the nanoseconds scaled into the fraction.  The nanosecond field
is first normalized into the range of one second, carrying into seconds. -/
def tspec_stamp_to_lfp (sec nsec : Int) : Nat :=
  let total := sec * 1000000000 + nsec
  let nsec1 := (total % 1000000000).toNat
  let sec1 := total / 1000000000
  ((sec1 + (JAN_1970 : Int)) % (U32 : Int)).toNat * U32 + fracOfNsec nsec1

/-- Modelled from the spec: tspec_intv_to_lfp of libntp/timespecops (not under
src/), converting a time interval with a nanosecond part below 10^9 to l_fp
without the era shift. -/
def tspec_intv_to_lfp (sec : Int) (nsec : Nat) : Nat :=
  (sec % (U32 : Int)).toNat * U32 + fracOfNsec nsec

/-! ## convert_ascii_time

The C routine leans on strptime with the fixed format %Y-%m-%dT%H:%M:%S and
then handles the fractional seconds and the terminating Z by hand.  strptime
is libc; it is modelled here for precisely that format string, per POSIX:
each numeric field consumes one to `width` digits and must lie in the
documented range, each literal character must match itself.  In C the
converted value is written through the out pointer only on success; here the
result type Option Nat represents that, none leaving the caller's l_fp
untouched. -/

/-- Fields of struct tm that strptime fills for this format (C conventions:
tm_year counts from 1900, tm_mon is zero-based). -/
structure Tm where
  tm_year : Int
  tm_mon : Int
  tm_mday : Int
  tm_hour : Int
  tm_min : Int
  tm_sec : Int
  deriving Repr, DecidableEq

/-- One numeric strptime field: consume at most width leading digits, require
at least one, and check the inclusive range. -/
def getNumber (lo hi width : Nat) (cs : List Char) : Option (Nat × List Char) :=
  let ds := (cs.takeWhile Char.isDigit).take width
  if ds.isEmpty then none
  else
    let v := natValFrom 0 ds
    if lo ≤ v ∧ v ≤ hi then some (v, cs.drop ds.length) else none

/-- One literal strptime character. -/
def litc (c : Char) : List Char → Option (List Char)
  | x :: r => if x = c then some r else none
  | [] => none

/-- strptime(gps_time, %Y-%m-%dT%H:%M:%S, &gd): parse the six numeric fields
with their POSIX ranges, return the tm values and the unconsumed rest. -/
def strptime_gps (cs : List Char) : Option (Tm × List Char) := do
  let (y, r) ← getNumber 0 9999 4 cs
  let r ← litc '-' r
  let (mo, r) ← getNumber 1 12 2 r
  let r ← litc '-' r
  let (d, r) ← getNumber 1 31 2 r
  let r ← litc 'T' r
  let (h, r) ← getNumber 0 23 2 r
  let r ← litc ':' r
  let (mi, r) ← getNumber 0 59 2 r
  let r ← litc ':' r
  let (se, r) ← getNumber 0 61 2 r
  return ({ tm_year := (y : Int) - 1900, tm_mon := (mo : Int) - 1,
            tm_mday := d, tm_hour := h, tm_min := mi, tm_sec := se }, r)

/-- The manual fraction loop of convert_ascii_time: digit weight starts at
10^8 nanoseconds and is divided by ten per digit, so digits beyond the ninth
are consumed with weight zero. -/
def fracLoop : List Char → Nat → Nat → Nat × List Char
  | c :: cs, dw, acc =>
    if c.isDigit then fracLoop cs (dw / 10) (acc + digitVal c * dw)
    else (acc, c :: cs)
  | [], _, acc => (acc, [])

/-- Modelled from the spec: rata die day number of a proleptic Gregorian
civil date, standing in for ntpcal_tm_to_rd of libntp/ntp_calendar (the
libntp sources are not under src/). -/
def rataDie (y m d : Int) : Int :=
  let y2 := if m ≤ 2 then y - 1 else y
  let era := (if 0 ≤ y2 then y2 else y2 - 399) / 400
  let yoe := y2 - era * 400
  let mp := (m + 9) % 12
  let doy := (153 * mp + 2) / 5 + d - 1
  let doe := yoe * 365 + yoe / 4 - yoe / 100 + doy
  era * 146097 + doe - 305

/-- Modelled from the spec: ntpcal_tm_to_rd of libntp (not under src/). -/
def ntpcal_tm_to_rd (t : Tm) : Int :=
  rataDie (t.tm_year + 1900) (t.tm_mon + 1) t.tm_mday

/-- Modelled from the spec: ntpcal_tm_to_daysec of libntp (not under src/),
seconds elapsed since midnight. -/
def ntpcal_tm_to_daysec (t : Tm) : Int :=
  (t.tm_hour * 60 + t.tm_min) * 60 + t.tm_sec

/-- Rata die of 1900-01-01, the NTP era start (DAY_NTP_STARTS). -/
def DAY_NTP_STARTS : Int := 693596

/-- Seconds per day. -/
def SECSPERDAY : Int := 86400

/-- convert_ascii_time from refclock_gpsd.c: parse the mandatory date-time
prefix with strptime, then the optional fractional part, require the final Z
as the last character, and convert through the calendar routines.  Returns
none exactly where the C function returns false without writing the result. -/
def convert_ascii_time (gps_time : List Char) : Option Nat :=
  match strptime_gps gps_time with
  | none => none
  | some (gd, ep) =>
    let fr := if ep.head? = some '.' then fracLoop ep.tail 100000000 0
              else (0, ep)
    if fr.2 = ['Z'] then
      let sec := (ntpcal_tm_to_rd gd - DAY_NTP_STARTS) * SECSPERDAY
                 + ntpcal_tm_to_daysec gd
      some (tspec_intv_to_lfp sec fr.1)
    else none

/-- The claim's description of the accepted inputs: a %Y-%m-%dT%H:%M:%S
prefix, optionally followed by a dot and decimal digits, terminated by Z and
nothing else.  This definition follows the words of the specification. -/
def specFracOk (ep : List Char) : Bool :=
  if ep.head? = some '.' then decide (ep.tail.dropWhile Char.isDigit = ['Z'])
  else decide (ep = ['Z'])

/-- Spec-side recognizer for the whole timestamp grammar of the claim. -/
def specGpsTimeFormat (cs : List Char) : Bool :=
  match strptime_gps cs with
  | some (_, rest) => specFracOk rest
  | none => false

/-! ## Line assembly in gpsd_receive

The assembly buffer of the unit is modelled as the list of stored bytes (its
length is the saved buflen) together with the list of completed, trimmed
lines handed to gpsd_parse.  Bytes are kept as raw Nat values below 256: the
C comparisons `ch > ' '` and `pdst[-1] <= ' '` act on a signed char, so bytes
at and above 0x80 compare as negative.  The tickover reset at the end of the
receive routine is included; the effects of gpsd_parse on the rest of the
unit state are modelled separately by gpsdParse. -/

/-- Signed char reading of a raw byte. -/
def sByte (b : Nat) : Int :=
  if b % 256 < 128 then (b % 256 : Int) else (b % 256 : Int) - 256

/-- The trim test of the receive loop: pdst[-1] <= ' ' on signed char. -/
def wsTrim (b : Nat) : Bool := sByte b ≤ 32

/-- The store test for a leading byte: ch > ' ' on signed char. -/
def wsLead (b : Nat) : Bool := 32 < sByte b

/-- Trailing trim of a completed line, removing bytes that compare as
whitespace from the end. -/
def rtrim (l : List Nat) : List Nat :=
  (l.reverse.dropWhile wsTrim).reverse

/-- State of the line assembler: the partial line in the PDU buffer, the
completed lines handed to the parser, and the tickover countdown. -/
structure RState where
  buf : List Nat
  lines : List (List Nat)
  tickover : Nat
  deriving Repr, DecidableEq

/-- One byte of the gpsd_receive loop: a line feed completes a line (trimmed
of trailing whitespace, buffer reset); any other byte is stored only while
pdst < edst, given here as the stored length staying below the distance edst
from the buffer start, and is not whitespace at the start of the line. -/
def recvStep (edst : Nat) (s : RState) (b : Nat) : RState :=
  if b = 10 then
    { s with buf := [], lines := s.lines ++ [rtrim s.buf] }
  else if s.buf.length < edst then
    if wsLead b || !s.buf.isEmpty then { s with buf := s.buf ++ [b] } else s
  else s

/-- gpsd_receive from refclock_gpsd.c, restricted to the line assembly: fold
the chunk bytes through the loop and reset the tickover countdown.  The C
routine sets pdst = buffer + buflen and edst = pdst + sizeof(buffer) - 1, so
the store bound is buflen-at-entry + MAX_PDU_LEN - 1 from the buffer start,
computed once per call from the saved length, not from the buffer start. -/
def gpsd_receive (chunk : List Nat) (s : RState) : RState :=
  let s1 := chunk.foldl (recvStep (s.buf.length + MAX_PDU_LEN - 1)) s
  { s1 with tickover := TICKOVER_LOW }

/-! ## The clock unit state

One record holds struct gpsd_unit together with the observable parts of the
primary and secondary refclockproc blocks and of the two peers, plus the
output channels: samples handed to the refclock core and emitted events
(throttled syslog lines, refclock_report calls, socket writes).  File
descriptors mirror the C convention with -1 as the empty value. -/

/-- Observable side effects of the driver. -/
inductive Ev where
  | report (secondary : Bool) (code : Nat)
  | syslog (site : Nat)
  | send (site : Nat)
  deriving Repr, DecidableEq

/-- Log and send site identifiers (one per msyslog or write call site). -/
def siteVersionInfo : Nat := 1

/-- Site id: process_version could not evaluate the version data. -/
def siteVersionEval : Nat := 2

/-- Site id: the ?WATCH request written to GPSD. -/
def siteWatchSend : Nat := 3

/-- Site id: writing the watch request failed. -/
def siteWatchWriteFail : Nat := 4

/-- Site id: eval_auto switches to PPS-augmented feeding. -/
def siteExpectPps : Nat := 5

/-- Site id: eval_auto switches to TPV-only feeding. -/
def siteTpvAlone : Nat := 6

/-- Site id: gpsd_stop_socket closes the connection. -/
def siteStopClose : Nat := 7

/-- Site id: socket creation failed. -/
def siteSocketFail : Nat := 8

/-- Site id: setting the socket non-blocking failed. -/
def siteFcntlFail : Nat := 9

/-- Site id: disabling Nagle failed. -/
def siteNodelayFail : Nat := 10

/-- Site id: synchronous connect failed. -/
def siteConnectFail : Nat := 11

/-- Site id: io_addclock failed after a synchronous connect. -/
def siteAddclockFail : Nat := 12

/-- Site id: asynchronous connect failed. -/
def siteAsyncFail : Nat := 13

/-- Site id: io_addclock failed after an asynchronous connect. -/
def siteAddclockFail2 : Nat := 14

/-- Site id: the periodic ?VERSION live probe. -/
def siteVersionProbe : Nat := 15

/-- The state of one GPSD clock unit, its refclockproc blocks and outputs. -/
structure DState where
  device : String
  mode : Nat
  proto_version : Nat
  pps_local : Nat
  pps_stamp : Nat
  pps_recvt : Nat
  pps_stamp2 : Nat
  pps_recvt2 : Nat
  ibt_local : Nat
  ibt_stamp : Nat
  ibt_recvt : Nat
  ibt_prec : Int
  pps_prec : Int
  pps_fudge : Nat
  pps_fudge2 : Nat
  ibt_fudge : Nat
  fl_nosync : Bool
  fl_ibt : Bool
  fl_pps : Bool
  fl_pps2 : Bool
  fl_rawibt : Bool
  fl_vers : Bool
  fl_watch : Bool
  pf_nsec : Bool
  pf_toff : Bool
  io_fd : Int
  fdt : Int
  addrRest : List Nat
  tickover : Nat
  tickpres : Nat
  tc_recv : Nat
  tc_breply : Nat
  tc_nosync : Nat
  tc_ibt_recv : Nat
  tc_ibt_used : Nat
  tc_pps_recv : Nat
  tc_pps_used : Nat
  logthrottle : Nat
  ppscount : Int
  ppscount2 : Int
  hasPpsPeer : Bool
  sloppy : Nat
  coderecv : Nat
  codeproc : Nat
  lastref : Nat
  lastrec : Nat
  a_lastcode : List Char
  sloppy2 : Nat
  coderecv2 : Nat
  codeproc2 : Nat
  lastref2 : Nat
  lastrec2 : Nat
  a_lastcode2 : List Char
  prim_precision : Int
  sec_precision : Int
  sec_flag_pps : Bool
  primSamples : List (Nat × Nat)
  secSamples : List (Nat × Nat)
  events : List Ev
  deriving Repr, DecidableEq

/-- syslogok from refclock_gpsd.c: permit a log line when CLK_FLAG3 is set or
the countdown sits at 0 or at the full LOGTHROTTLE value; on permission the
countdown is reloaded to LOGTHROTTLE.  Returns the verdict and the updated
countdown. -/
def syslogok (flag3 : Bool) (logthrottle : Nat) : Bool × Nat :=
  let res := flag3 || decide (logthrottle = 0) || decide (logthrottle = LOGTHROTTLE)
  (res, if res then LOGTHROTTLE else logthrottle)

/-- CLK_FLAG3 test on the primary sloppyclockflag word. -/
def flag3Of (s : DState) : Bool := decide (s.sloppy &&& CLK_FLAG3 ≠ 0)

/-- A syslogok-gated msyslog call: emit the event only when permitted, and
update the throttle countdown either way. -/
def tryLog (site : Nat) (s : DState) : DState :=
  let r := syslogok (flag3Of s) s.logthrottle
  if r.1 then { s with logthrottle := r.2, events := s.events ++ [Ev.syslog site] }
  else { s with logthrottle := r.2 }

/-- BMAX bound of the a_lastcode buffer in refclockproc. -/
def BMAX : Nat := 128

/-- save_ltc on the primary refclockproc: strlcpy-truncate and store. -/
def save_ltc_prim (tc : List Char) (s : DState) : DState :=
  { s with a_lastcode := tc.take (BMAX - 1) }

/-- save_ltc on the secondary refclockproc. -/
def save_ltc_sec (tc : List Char) (s : DState) : DState :=
  { s with a_lastcode2 := tc.take (BMAX - 1) }

/-- Modelled from the spec: prettydate of libntp (not under src/) renders a
timestamp for the status string; only the stored text matters here. -/
def prettydate (x : Nat) : List Char := (toString x).data

/-- clamped_precision from refclock_gpsd.c: clamp a log2 precision into
[-32, 0]. -/
def clamped_precision (rawprec : Int) : Int :=
  let r1 := if rawprec > 0 then 0 else rawprec
  if r1 < -32 then -32 else r1

/-- MAXSTAGE ring size of the refclock median filter. -/
def MAXSTAGE : Nat := 60

/-- Modelled from the spec: refclock_process_offset of the refclock core
(ntp_refclock.c is not under src/).  It consumes the simplified record as a
Sample, bypassing the 4-timestamp computation: the receive stamp is stored,
the (reference_time, receive_time) pair is appended to the sample feed and
the filter ring index advances.  Primary channel version. -/
def refclock_process_offset_prim (stamp recvt : Nat) (s : DState) : DState :=
  let cr := (s.coderecv + 1) % MAXSTAGE
  { s with lastrec := recvt,
           primSamples := s.primSamples ++ [(stamp, recvt)],
           coderecv := cr,
           codeproc := if cr = s.codeproc then (s.codeproc + 1) % MAXSTAGE
                       else s.codeproc }

/-- Modelled from the spec: refclock_process_offset for the secondary (PPS)
channel refclockproc. -/
def refclock_process_offset_sec (stamp recvt : Nat) (s : DState) : DState :=
  let cr := (s.coderecv2 + 1) % MAXSTAGE
  { s with lastrec2 := recvt,
           secSamples := s.secSamples ++ [(stamp, recvt)],
           coderecv2 := cr,
           codeproc2 := if cr = s.codeproc2 then (s.codeproc2 + 1) % MAXSTAGE
                        else s.codeproc2 }

/-- add_clock_sample from refclock_gpsd.c on the primary channel: store the
reference stamp, report a nominal event when the sample queue was empty and
feed the (stamp, receive-time) pair with fudge 0.0 through
refclock_process_offset. -/
def add_clock_sample_prim (stamp recvt : Nat) (s : DState) : DState :=
  let s := { s with lastref := stamp }
  let s := if s.coderecv = s.codeproc
           then { s with events := s.events ++ [Ev.report false CEVNT_NOMINAL] }
           else s
  refclock_process_offset_prim stamp recvt s

/-- add_clock_sample on the secondary channel. -/
def add_clock_sample_sec (stamp recvt : Nat) (s : DState) : DState :=
  let s := { s with lastref2 := stamp }
  let s := if s.coderecv2 = s.codeproc2
           then { s with events := s.events ++ [Ev.report true CEVNT_NOMINAL] }
           else s
  refclock_process_offset_sec stamp recvt s

/-! ## Operation mode evaluation -/

/-- eval_strict from refclock_gpsd.c: feed only when both the IBT record and
the PPS pulse are valid, pairing the IBT reference stamp with the PPS receive
time; both inputs are consumed. -/
def eval_strict (s : DState) : DState :=
  if s.fl_ibt && s.fl_pps then
    let s := add_clock_sample_prim s.ibt_stamp s.pps_recvt s
    let s := { s with prim_precision := s.pps_prec }
    { s with fl_pps := false, fl_ibt := false, tc_ibt_used := s.tc_ibt_used + 1 }
  else s

/-- eval_serial from refclock_gpsd.c: feed the raw IBT pair and consume it. -/
def eval_serial (s : DState) : DState :=
  if s.fl_ibt then
    let s := add_clock_sample_prim s.ibt_stamp s.ibt_recvt s
    let s := { s with prim_precision := s.ibt_prec }
    { s with fl_ibt := false, tc_ibt_used := s.tc_ibt_used + 1 }
  else s

/-- eval_pps_secondary from refclock_gpsd.c: feed the secondary channel from
the PPS pair, run the PPS flag logic of the secondary peer and consume the
pulse. -/
def eval_pps_secondary (s : DState) : DState :=
  if s.fl_pps2 then
    let s := add_clock_sample_sec s.pps_stamp2 s.pps_recvt2 s
    let s := { s with sec_precision := s.pps_prec }
    let s := { s with ppscount2 := min PPS2_MAXCOUNT (s.ppscount2 + 2) }
    let s := if s.ppscount2 = PPS2_MAXCOUNT ∧ s.sloppy2 &&& CLK_FLAG1 ≠ 0
             then { s with sec_flag_pps := true } else s
    { s with fl_pps2 := false, tc_pps_used := s.tc_pps_used + 1 }
  else s

/-- eval_auto from refclock_gpsd.c: the PPS availability credit dance.  A
good pulse earns PPS_INCCOUNT credits (cap PPS_MAXCOUNT), a missing one costs
PPS_DECCOUNT (floor 0); the feeding mode flips to PPS-augmented only at the
cap and back to TPV-only raw stamps only at zero, then the sample is fed by
the matching evaluation routine. -/
def eval_auto (s : DState) : DState :=
  if !s.fl_ibt then s
  else
    let s :=
      if s.fl_pps then
        let s := { s with ppscount := min PPS_MAXCOUNT (s.ppscount + PPS_INCCOUNT) }
        if s.ppscount = PPS_MAXCOUNT ∧ s.fl_rawibt then
          { s with fl_rawibt := false, events := s.events ++ [Ev.syslog siteExpectPps] }
        else s
      else
        let s := { s with ppscount := max 0 (s.ppscount - PPS_DECCOUNT) }
        if s.ppscount = 0 ∧ ¬s.fl_rawibt then
          { s with fl_rawibt := true, events := s.events ++ [Ev.syslog siteTpvAlone] }
        else s
    if s.fl_rawibt then eval_serial s else eval_strict s

/-! ## JSON record abstraction

The jsmn tokenizer is vendored third-party code outside src/; the lookup
helpers of the driver resolve keys of the top-level object into primitive,
string or boolean values.  A JsonRec holds exactly those lookup results for
the keys the driver reads: an Option Int field is some v when the C lookup
would deliver v with errno untouched, none when the key is missing or
strtojint flags the token (no digits, or out of range); Option Bool mirrors
the tribool of json_object_lookup_bool; the float ept pipeline of process_tpv
(frexp over double) enters as its resulting integer exponent. -/

/-- Lookup results of one parsed JSON record. -/
structure JsonRec where
  cls : Option String
  tpvMode : Option Int
  tpvTime : Option (List Char)
  eptLog2 : Int
  clock_sec : Option Int
  clock_nsec : Option Int
  clock_musec : Option Int
  real_sec : Option Int
  real_nsec : Option Int
  real_musec : Option Int
  ppsPrecision : Option Int
  protoMajor : Option Int
  protoMinor : Option Int
  device : Option String
  enable : Option Bool
  json : Option Bool
  deriving Repr, DecidableEq

/-- get_binary_time from refclock_gpsd.c: both integer lookups must succeed
with errno clear; the fraction is scaled to nanoseconds and the timespec
converted to l_fp. -/
def get_binary_time (sec nsec : Option Int) (fscale : Int) : Option Nat :=
  match sec, nsec with
  | some s, some n => some (tspec_stamp_to_lfp s (n * fscale))
  | _, _ => none

/-- Environment of one parse pass: whether the write of the watch request in
process_version succeeds. -/
structure PEnv where
  watchWriteOk : Bool
  deriving Repr, DecidableEq

/-- process_watch from refclock_gpsd.c: only a record for our own device is
considered; fl_watch reflects enable and json both being true. -/
def process_watch (jr : JsonRec) (s : DState) : DState :=
  match jr.device with
  | none => s
  | some path =>
    if path ≠ s.device then s
    else if jr.enable = some true ∧ jr.json = some true then { s with fl_watch := true }
    else { s with fl_watch := false }

/-- process_version from refclock_gpsd.c: evaluate the protocol version (with
uint16 truncation of the two numbers), derive the pf_nsec and pf_toff
protocol flags, and send the watch request unless already watching. -/
def process_version (env : PEnv) (jr : JsonRec) (s : DState) : DState :=
  match jr.protoMajor, jr.protoMinor with
  | some hi, some lo =>
    let pvhi := (hi % 65536).toNat
    let pvlo := (lo % 65536).toNat
    let s := if !s.fl_vers then { s with events := s.events ++ [Ev.syslog siteVersionInfo] }
             else s
    let pv := PROTO_VERSION pvhi pvlo
    let s := { s with proto_version := pv, fl_vers := true,
                      pf_nsec := decide (PROTO_VERSION 3 9 ≤ pv),
                      pf_toff := decide (PROTO_VERSION 3 10 ≤ pv) }
    if s.fl_watch then s
    else
      let s := { s with events := s.events ++ [Ev.send siteWatchSend] }
      if !env.watchWriteOk then tryLog siteWatchWriteFail s else s
  | _, _ => tryLog siteVersionEval s

/-- The no-fix branch of process_tpv: count the cycle, drop the validity
flags and remember the bad quality. -/
def tpvNoFix (s : DState) : DState :=
  let s := if !s.pf_toff then { s with tc_ibt_recv := s.tc_ibt_recv + 1 } else s
  { s with tc_nosync := s.tc_nosync + 1,
           fl_ibt := false, fl_pps := false, fl_nosync := true }

/-- process_tpv from refclock_gpsd.c: accept the stamp only in a 2d/3d fix;
when no TOFF records are expected, convert the ASCII time (counting a bad
reply on failure) and substitute the local receive time; finally derive the
serial precision from the ept estimate. -/
def process_tpv (jr : JsonRec) (rtime : Nat) (s : DState) : DState :=
  let gps_mode : Int := jr.tpvMode.getD 0
  match jr.tpvTime with
  | none => tpvNoFix s
  | some gt =>
    if gps_mode < 2 then tpvNoFix s
    else
      let s := { s with fl_nosync := false }
      let s :=
        if s.pf_toff then s
        else
          let s := { s with tc_ibt_recv := s.tc_ibt_recv + 1 }
          let s := save_ltc_prim gt s
          match convert_ascii_time gt with
          | some v =>
            { s with ibt_stamp := v, ibt_local := rtime,
                     ibt_recvt := lfpSub rtime s.ibt_fudge, fl_ibt := true }
          | none => { s with tc_breply := s.tc_breply + 1, fl_ibt := false }
      { s with ibt_prec := clamped_precision jr.eptLog2 }

/-- process_pps from refclock_gpsd.c: grab the pulse times (nanosecond or
microsecond protocol), the PPS precision, apply both fudges, and mark both
channels' pulses valid; a failing time lookup counts a bad reply, leaving any
partial write behind. -/
def process_pps (jr : JsonRec) (rtime : Nat) (s : DState) : DState :=
  let s := { s with tc_pps_recv := s.tc_pps_recv + 1 }
  if s.fl_nosync then s
  else
    let s := { s with pps_local := rtime }
    let clockT := if s.pf_nsec then get_binary_time jr.clock_sec jr.clock_nsec 1
                  else get_binary_time jr.clock_sec jr.clock_musec 1000
    match clockT with
    | none => { s with tc_breply := s.tc_breply + 1 }
    | some v =>
      let s := { s with pps_recvt2 := v }
      let realT := if s.pf_nsec then get_binary_time jr.real_sec jr.real_nsec 1
                   else get_binary_time jr.real_sec jr.real_musec 1000
      match realT with
      | none => { s with tc_breply := s.tc_breply + 1 }
      | some w =>
        let s := { s with pps_stamp2 := w }
        let s := { s with pps_prec := clamped_precision (jr.ppsPrecision.getD s.ibt_prec) }
        let s := { s with pps_recvt := lfpSub s.pps_recvt2 s.pps_fudge }
        let s := { s with pps_recvt2 := lfpSub s.pps_recvt2 s.pps_fudge2 }
        let s := { s with lastrec := s.pps_recvt }
        let s := { s with pps_stamp := setlfpfrac0 (lfpAdd s.pps_recvt 0x80000000) }
        let s := if s.hasPpsPeer then save_ltc_sec (prettydate s.pps_stamp2) s else s
        { s with fl_pps := decide (s.sloppy &&& CLK_FLAG2 = 0), fl_pps2 := true }

/-- process_toff from refclock_gpsd.c: the timing record with GPSD receive
time; both binary times must parse, the receive time is fudged and the IBT
pair marked valid. -/
def process_toff (jr : JsonRec) (rtime : Nat) (s : DState) : DState :=
  let s := { s with tc_ibt_recv := s.tc_ibt_recv + 1, pf_toff := true }
  if s.fl_nosync then s
  else
    match get_binary_time jr.clock_sec jr.clock_nsec 1 with
    | none => { s with tc_breply := s.tc_breply + 1 }
    | some v =>
      let s := { s with ibt_recvt := v }
      match get_binary_time jr.real_sec jr.real_nsec 1 with
      | none => { s with tc_breply := s.tc_breply + 1 }
      | some w =>
        let s := { s with ibt_stamp := w }
        let s := { s with ibt_recvt := lfpSub s.ibt_recvt s.ibt_fudge,
                          ibt_local := rtime, fl_ibt := true }
        save_ltc_prim (prettydate s.ibt_stamp) s

/-- The stale-stamp check of gpsd_parse: if both pulse and serial data are
valid, compare the local receive times; the IBT record older than the pulse
invalidates the pulse and vice versa. -/
def staleCheck (s : DState) : DState :=
  if s.fl_pps ∧ s.fl_ibt then
    let diff := lfpSub s.ibt_local s.pps_local
    if 0 < lfpsint diff then { s with fl_pps := false }
    else if lfpsint diff < 0 then { s with fl_ibt := false }
    else s
  else s

/-- The mode-dependent dispatch at the end of gpsd_parse (the C switch whose
default falls into the serial evaluation). -/
def modeDispatch (s : DState) : DState :=
  if s.mode = MODE_OP_STRICT then eval_strict s
  else if s.mode = MODE_OP_AUTO then eval_auto s
  else eval_serial s

/-- The tail of gpsd_parse after a known record was processed: count it, feed
the PPS side channel, weed out stale stamps by comparing the local receive
times, then dispatch to the mode-dependent evaluation. -/
def gpsdAfterDispatch (s : DState) : DState :=
  let s1 := { s with tc_recv := s.tc_recv + 1 }
  let s2 := if s.hasPpsPeer then eval_pps_secondary s1 else s1
  modeDispatch (staleCheck s2)

/-- gpsd_parse from refclock_gpsd.c.  The parsed input stands for the result
of json_parse_record over the assembled line: none when jsmn fails or the
top-level token is not an object, otherwise the lookup view of the record.
An unparsable line or one without a class string counts a bad reply and
changes nothing else; an unknown class returns silently. -/
def gpsd_parse (env : PEnv) (parsed : Option JsonRec) (rtime : Nat) (s : DState) : DState :=
  match parsed with
  | none => { s with tc_breply := s.tc_breply + 1 }
  | some jr =>
    match jr.cls with
    | none => { s with tc_breply := s.tc_breply + 1 }
    | some c =>
      if c = "TPV" then gpsdAfterDispatch (process_tpv jr rtime s)
      else if c = "PPS" then gpsdAfterDispatch (process_pps jr rtime s)
      else if c = "TOFF" then gpsdAfterDispatch (process_toff jr rtime s)
      else if c = "VERSION" then gpsdAfterDispatch (process_version env jr s)
      else if c = "WATCH" then gpsdAfterDispatch (process_watch jr s)
      else s

/-! ## Socket management and the per-second timer -/

/-- The additive bump of the timeout preset, capped at TICKOVER_HIGH. -/
def nextPreset (t : Nat) : Nat := min (t + 5) TICKOVER_HIGH

/-- The shared no_socket tail: forget both descriptors, reload the countdown
from the preset and bump the preset toward TICKOVER_HIGH. -/
def noSocketTail (s : DState) : DState :=
  { s with io_fd := -1, fdt := -1,
           tickover := s.tickpres, tickpres := nextPreset s.tickpres }

/-- gpsd_stop_socket from refclock_gpsd.c: close an open connection (with a
throttled log), reload the countdown, bump the preset and drop all protocol
state flags. -/
def gpsd_stop_socket (s : DState) : DState :=
  let s :=
    if s.io_fd ≠ -1 then
      let s := tryLog siteStopClose s
      { s with io_fd := -1 }
    else s
  { s with tickover := s.tickpres, tickpres := nextPreset s.tickpres,
           fl_vers := false, fl_ibt := false, fl_pps := false, fl_watch := false }

/-- Outcome of the non-blocking connect call. -/
inductive ConnRes where
  | ok : ConnRes
  | inProgress : ConnRes
  | err : ConnRes
  deriving Repr, DecidableEq

/-- Outcomes of the system calls made by gpsd_init_socket. -/
structure SockEnv where
  socketFd : Option Int
  fcntlOk : Bool
  nodelayOk : Bool
  connectRes : ConnRes
  addclockOk : Bool
  deriving Repr, DecidableEq

/-- The body of gpsd_init_socket after the address draw: create and
configure a non-blocking socket and start the connect.  Failures of
creation, of the non-blocking fcntl, of a synchronous connect, or of the I/O
registration log (throttled) and take the no_socket exit; a failed
TCP_NODELAY option is only logged; a pending asynchronous connect returns
with the probe descriptor armed. -/
def gpsd_init_socket_conn (env : SockEnv) (s : DState) : DState :=
  match env.socketFd with
  | none =>
    let s := { s with fdt := -1 }
    noSocketTail (tryLog siteSocketFail s)
  | some fd =>
    let s := { s with fdt := fd }
    if !env.fcntlOk then noSocketTail (tryLog siteFcntlFail s)
    else
      let s := if !env.nodelayOk then tryLog siteNodelayFail s else s
      match env.connectRes with
      | ConnRes.inProgress => s
      | ConnRes.err => noSocketTail (tryLog siteConnectFail s)
      | ConnRes.ok =>
        let s := { s with io_fd := s.fdt, fdt := -1 }
        if !env.addclockOk then noSocketTail (tryLog siteAddclockFail s)
        else s

/-- gpsd_init_socket from refclock_gpsd.c: draw the next address round-robin
(reloading the list from the resolved service addresses when exhausted),
then run the connection attempt. -/
def gpsd_init_socket (gaddrs : List Nat) (env : SockEnv) (s : DState) : DState :=
  let addrs := if s.addrRest.isEmpty then gaddrs else s.addrRest
  match addrs with
  | [] => s
  | _ :: tl => gpsd_init_socket_conn env { s with addrRest := tl }

/-- Outcomes of the system calls made by gpsd_test_socket. -/
structure TestEnv where
  selReady : Bool
  soError : Option Int
  addclockOk : Bool
  deriving Repr, DecidableEq

/-- gpsd_test_socket from refclock_gpsd.c: poll the pending connect; when
writable, either promote the descriptor to the I/O engine or, on a pending
socket error or a failed registration, log (throttled) and take the
no_socket exit of this routine (which leaves io_fd alone). -/
def gpsd_test_socket (env : TestEnv) (s : DState) : DState :=
  if !env.selReady then s
  else
    let s := { s with tickover := TICKOVER_LOW }
    match env.soError with
    | some _ =>
      let s := tryLog siteAsyncFail s
      { s with fdt := -1, tickover := s.tickpres, tickpres := nextPreset s.tickpres }
    | none =>
      let s := { s with io_fd := s.fdt, fdt := -1 }
      if !env.addclockOk then
        let s := tryLog siteAddclockFail2 s
        { s with fdt := -1, tickover := s.tickpres, tickpres := nextPreset s.tickpres }
      else s

/-- Environment of one timer tick. -/
structure TimerEnv where
  sock : SockEnv
  test : TestEnv
  deriving Repr, DecidableEq

/-- timer_primary from refclock_gpsd.c: decrement the log throttle and the
tickover countdown (the C guards against decrementing zero, which truncated
Nat subtraction renders exactly), then drive the connection state machine: at
4 send a live probe or test the pending connect, at 0 stop a live
connection, test a pending one, or start a new attempt when an address is
known. -/
def timer_primary (gaddrs : List Nat) (env : TimerEnv) (s0 : DState) : DState :=
  let s := { s0 with logthrottle := s0.logthrottle - 1, tickover := s0.tickover - 1 }
  if s.tickover = 4 then
    if s.io_fd ≠ -1 then { s with events := s.events ++ [Ev.send siteVersionProbe] }
    else if s.fdt ≠ -1 then gpsd_test_socket env.test s
    else s
  else if s.tickover = 0 then
    if s.io_fd ≠ -1 then gpsd_stop_socket s
    else if s.fdt ≠ -1 then gpsd_test_socket env.test s
    else if !gaddrs.isEmpty then gpsd_init_socket gaddrs env.sock s
    else s
  else
    if s.io_fd = -1 ∧ s.fdt ≠ -1 then gpsd_test_socket env.test s else s

/-! ## Derived predicates used by the statements -/

/-- Abort condition of a connection attempt: creating the socket failed,
making it non-blocking failed, the synchronous connect failed outright, or
registration with the I/O engine failed. -/
def sockAborted (env : SockEnv) : Prop :=
  env.socketFd = none ∨ env.fcntlOk = false ∨ env.connectRes = ConnRes.err ∨
  (env.connectRes = ConnRes.ok ∧ env.addclockOk = false)

/-- The throttle gate is open for the next message in this state. -/
def logPermitted (s : DState) : Prop :=
  flag3Of s = true ∨ s.logthrottle = 0 ∨ s.logthrottle = LOGTHROTTLE

/-- The logthrottle decrement of one timer tick, in isolation. -/
def tickThrottle (l : Nat) : Nat := if l ≠ 0 then l - 1 else l

/-- The head byte of a stored line, if any, passed the leading store test. -/
def leadOkB (l : List Nat) : Bool :=
  match l.head? with
  | some x => wsLead x
  | none => true

/-- The last byte of a line, if any, would not be trimmed as whitespace. -/
def lastOkB (l : List Nat) : Bool :=
  match l.getLast? with
  | some x => !wsTrim x
  | none => true

/-- A completed line is clean: no leading whitespace stored, no trailing
whitespace left. -/
def lineCleanB (l : List Nat) : Bool := leadOkB l && lastOkB l

/-- Invariant of the receive assembler: the saved length leaves the NUL byte
room, the partial line has no stored leading whitespace, and every completed
line is clean. -/
def recvInvB (s : RState) : Bool :=
  decide (s.buf.length ≤ MAX_PDU_LEN - 1) && leadOkB s.buf && s.lines.all lineCleanB

/-- A neutral concrete unit state used by the closed witness statements. -/
def baseState : DState :=
  { device := "/dev/gps0", mode := MODE_OP_IBT, proto_version := 0,
    pps_local := 0, pps_stamp := 0, pps_recvt := 0, pps_stamp2 := 0,
    pps_recvt2 := 0, ibt_local := 0, ibt_stamp := 0, ibt_recvt := 0,
    ibt_prec := PRECISION, pps_prec := PPS_PRECISION,
    pps_fudge := 0, pps_fudge2 := 0, ibt_fudge := 0,
    fl_nosync := false, fl_ibt := false, fl_pps := false, fl_pps2 := false,
    fl_rawibt := false, fl_vers := false, fl_watch := false,
    pf_nsec := false, pf_toff := false,
    io_fd := -1, fdt := -1, addrRest := [], tickover := 0, tickpres := TICKOVER_LOW,
    tc_recv := 0, tc_breply := 0, tc_nosync := 0, tc_ibt_recv := 0,
    tc_ibt_used := 0, tc_pps_recv := 0, tc_pps_used := 0,
    logthrottle := 0, ppscount := 0, ppscount2 := 0,
    hasPpsPeer := false, sloppy := 0, coderecv := 0, codeproc := 0,
    lastref := 0, lastrec := 0, a_lastcode := [],
    sloppy2 := 0, coderecv2 := 0, codeproc2 := 0, lastref2 := 0, lastrec2 := 0,
    a_lastcode2 := [], prim_precision := PRECISION, sec_precision := PPS_PRECISION,
    sec_flag_pps := false, primSamples := [], secSamples := [], events := [] }

/-- A concrete AUTO-mode state three credits below the PPS cap, used by the
closed witness statements. -/
def autoWitState : DState :=
  { baseState with mode := MODE_OP_AUTO, fl_ibt := true, fl_pps := true,
                   fl_rawibt := true, ppscount := 57 }

/-- A record with no fields resolved, used by the closed witness statements. -/
def emptyJson : JsonRec :=
  { cls := none, tpvMode := none, tpvTime := none, eptLog2 := 0,
    clock_sec := none, clock_nsec := none, clock_musec := none,
    real_sec := none, real_nsec := none, real_musec := none,
    ppsPrecision := none, protoMajor := none, protoMinor := none,
    device := none, enable := none, json := none }

/-- A TPV record with a 3d fix and an unparsable time string, used by the
closed witness statements. -/
def tpvWitJson : JsonRec :=
  { emptyJson with cls := some "TPV", tpvMode := some 3,
                   tpvTime := some ("bogus".data) }

/-! ## Theorems -/

theorem tickThrottle_iterate (k : Nat) :
    ∀ l, k ≤ l → tickThrottle^[k] l = l - k := by
  induction k with
  | zero => intro l _; simp
  | succ n ih =>
    intro l h
    rw [Function.iterate_succ_apply]
    have hl : l ≠ 0 := by omega
    have h1 : tickThrottle l = l - 1 := by simp [tickThrottle, hl]
    rw [h1, ih (l - 1) (by omega)]
    omega

theorem nextPreset_le (t : Nat) : nextPreset t ≤ TICKOVER_HIGH := by
  simp only [nextPreset, TICKOVER_HIGH]
  omega

theorem nextPreset_reach (k : Nat) :
    ∀ t, t ≤ TICKOVER_HIGH → TICKOVER_HIGH ≤ t + 5 * k →
      nextPreset^[k] t = TICKOVER_HIGH := by
  induction k with
  | zero => intro t h1 h2; simpa using le_antisymm h1 (by omega)
  | succ n ih =>
    intro t h1 h2
    rw [Function.iterate_succ_apply]
    refine ih (nextPreset t) (nextPreset_le t) ?_
    simp only [nextPreset, TICKOVER_HIGH] at h2 ⊢
    omega

/-- C1: a received line that is not a valid JSON object (json_parse_record
fails) or that lacks a class string field makes gpsd_parse increment the
per-unit bad-reply tally tc_breply and change nothing else: no clock sample
is fed on either channel, no event is emitted, and the function returns
normally, the error being contained to this unit's state. -/
theorem gpsd_parse_bad_record_contained (env : PEnv) (parsed : Option JsonRec)
    (rtime : Nat) (s : DState)
    (h : parsed = none ∨ ∃ jr, parsed = some jr ∧ jr.cls = none) :
    gpsd_parse env parsed rtime s = { s with tc_breply := s.tc_breply + 1 } := by
  rcases h with h | ⟨jr, hjr, hcls⟩
  · subst h; rfl
  · subst hjr; simp [gpsd_parse, hcls]

/-- Witness for C1 at two concrete bad inputs: an unparsable line and a
parsed object without a class field. -/
theorem gpsd_parse_bad_record_contained_witness :
    gpsd_parse ⟨true⟩ none 0 baseState
      = { baseState with tc_breply := baseState.tc_breply + 1 } ∧
    gpsd_parse ⟨true⟩ (some emptyJson) 7 baseState
      = { baseState with tc_breply := baseState.tc_breply + 1 } :=
  ⟨gpsd_parse_bad_record_contained ⟨true⟩ none 0 baseState (Or.inl rfl),
   gpsd_parse_bad_record_contained ⟨true⟩ (some emptyJson) 7 baseState
     (Or.inr ⟨emptyJson, rfl, rfl⟩)⟩

/-- C6 counterexample: the gate also opens when the countdown sits at the
full LOGTHROTTLE value, so two syslogok calls in the same one-second tick
(no decrement between them) are both granted; the claim's at most one
message per LOGTHROTTLE window is violated by this concrete pair of calls
with CLK_FLAG3 clear. -/
theorem syslogok_two_grants_same_tick :
    (syslogok false 0).1 = true ∧ (syslogok false (syslogok false 0).2).1 = true := by
  decide

/-- C6 (amended): with CLK_FLAG3 set every message is permitted; a granted
message reloads the countdown to LOGTHROTTLE and a denied one leaves it; once
one timer tick has passed after a grant, all further messages are denied
until the countdown, decremented once per one-second timer tick of the
primary channel, has run through the full LOGTHROTTLE window; messages
within the same tick as a grant are permitted. -/
theorem syslogok_throttle_window :
    (∀ l, (syslogok true l).1 = true) ∧
    (∀ f3 l, (syslogok f3 l).1 = true → (syslogok f3 l).2 = LOGTHROTTLE) ∧
    (∀ f3 l, (syslogok f3 l).1 = false → (syslogok f3 l).2 = l) ∧
    (∀ k, 1 ≤ k → k ≤ LOGTHROTTLE - 1 →
      (syslogok false (tickThrottle^[k] LOGTHROTTLE)).1 = false) ∧
    ((syslogok false (tickThrottle^[LOGTHROTTLE] LOGTHROTTLE)).1 = true) ∧
    (∀ gaddrs env s, s.io_fd ≠ -1 → s.tickover ≠ 0 → s.tickover ≠ 1 →
      (timer_primary gaddrs env s).logthrottle = s.logthrottle - 1) := by
  refine ⟨?_, ?_, ?_, ?_, ?_, ?_⟩
  · intro l; simp [syslogok]
  · intro f3 l h
    simp only [syslogok] at h ⊢
    simp [h]
  · intro f3 l h
    simp only [syslogok] at h ⊢
    simp [h]
  · intro k h1 h2
    rw [tickThrottle_iterate k LOGTHROTTLE (by omega)]
    simp only [syslogok, LOGTHROTTLE] at h2 ⊢
    have hne0 : ¬(3600 - k = 0) := by omega
    have hne : ¬(3600 - k = 3600) := by omega
    simp [hne0, hne]
  · rw [tickThrottle_iterate LOGTHROTTLE LOGTHROTTLE le_rfl]
    simp [syslogok]
  · intro gaddrs env s hio h0 h1
    have h4 : s.tickover - 1 ≠ 0 := by omega
    simp only [timer_primary]
    by_cases hc : s.tickover - 1 = 4
    · simp [hc, hio]
    · simp [hc, h4, hio]

/-- Witness for C6 at concrete inputs: one tick after a grant the gate
denies, and a timer tick on a connected unit decrements the throttle. -/
theorem syslogok_throttle_window_witness :
    (syslogok false (tickThrottle^[1] LOGTHROTTLE)).1 = false ∧
    (timer_primary [] ⟨⟨none, true, true, ConnRes.err, true⟩, ⟨false, none, true⟩⟩
      { baseState with io_fd := 3, tickover := 7, logthrottle := 5 }).logthrottle = 4 := by
  constructor
  · exact syslogok_throttle_window.2.2.2.1 1 (by decide) (by decide)
  · exact syslogok_throttle_window.2.2.2.2.2 []
      ⟨⟨none, true, true, ConnRes.err, true⟩, ⟨false, none, true⟩⟩
      { baseState with io_fd := 3, tickover := 7, logthrottle := 5 }
      (by decide) (by decide) (by decide)

theorem gpsd_stop_socket_preset (s : DState) :
    (gpsd_stop_socket s).tickover = s.tickpres ∧
    (gpsd_stop_socket s).tickpres = nextPreset s.tickpres := by
  simp only [gpsd_stop_socket, tryLog]
  split_ifs <;> simp

theorem syslogok_snd_of_true (f3 : Bool) (l : Nat)
    (h : (syslogok f3 l).1 = true) : (syslogok f3 l).2 = LOGTHROTTLE := by
  simp only [syslogok] at h ⊢
  simp [h]

theorem syslogok_full (f3 : Bool) : (syslogok f3 LOGTHROTTLE).1 = true := by
  simp [syslogok]

theorem tryLog_grant (site : Nat) (s : DState)
    (h : (syslogok (flag3Of s) s.logthrottle).1 = true) :
    tryLog site s = { s with logthrottle := LOGTHROTTLE,
                             events := s.events ++ [Ev.syslog site] } := by
  simp only [tryLog, h, syslogok_snd_of_true _ _ h, if_true]

theorem tryLog_fields (site : Nat) (s : DState) :
    (tryLog site s).io_fd = s.io_fd ∧ (tryLog site s).fdt = s.fdt ∧
    (tryLog site s).tickover = s.tickover ∧ (tryLog site s).tickpres = s.tickpres := by
  simp only [tryLog]
  split_ifs <;> simp

theorem noSocketTail_fields (s : DState) :
    (noSocketTail s).io_fd = -1 ∧ (noSocketTail s).fdt = -1 ∧
    (noSocketTail s).tickover = s.tickpres ∧
    (noSocketTail s).tickpres = nextPreset s.tickpres ∧
    (noSocketTail s).events = s.events := by
  simp [noSocketTail]

theorem noSock_tryLog_fields (site : Nat) (s2 : DState) :
    (noSocketTail (tryLog site s2)).io_fd = -1 ∧
    (noSocketTail (tryLog site s2)).fdt = -1 ∧
    (noSocketTail (tryLog site s2)).tickover = s2.tickpres ∧
    (noSocketTail (tryLog site s2)).tickpres = nextPreset s2.tickpres := by
  have h1 := tryLog_fields site s2
  have h2 := noSocketTail_fields (tryLog site s2)
  refine ⟨h2.1, h2.2.1, ?_, ?_⟩
  · rw [h2.2.2.1, h1.2.2.2]
  · rw [h2.2.2.2.1, h1.2.2.2]

theorem gpsd_init_socket_conn_abort (env : SockEnv) (s : DState)
    (hb : sockAborted env) :
    (gpsd_init_socket_conn env s).io_fd = -1 ∧
    (gpsd_init_socket_conn env s).fdt = -1 ∧
    (gpsd_init_socket_conn env s).tickover = s.tickpres ∧
    (gpsd_init_socket_conn env s).tickpres = nextPreset s.tickpres := by
  rcases env with ⟨sfd, fok, nok, cres, aok⟩
  simp only [sockAborted] at hb
  cases sfd with
  | none =>
    exact noSock_tryLog_fields siteSocketFail { s with fdt := -1 }
  | some fd =>
    cases fok with
    | false =>
      exact noSock_tryLog_fields siteFcntlFail { s with fdt := fd }
    | true =>
      cases cres with
      | inProgress => rcases hb with h | h | h | ⟨h, _⟩ <;> simp_all
      | err =>
        cases nok with
        | false =>
          have h3 := tryLog_fields siteNodelayFail { s with fdt := fd }
          have h4 := noSock_tryLog_fields siteConnectFail
            (tryLog siteNodelayFail { s with fdt := fd })
          exact ⟨h4.1, h4.2.1, h4.2.2.1.trans h3.2.2.2,
                 h4.2.2.2.trans (congrArg nextPreset h3.2.2.2)⟩
        | true =>
          exact noSock_tryLog_fields siteConnectFail { s with fdt := fd }
      | ok =>
        cases aok with
        | true => rcases hb with h | h | h | ⟨_, h⟩ <;> simp_all
        | false =>
          cases nok with
          | false =>
            have h3 := tryLog_fields siteNodelayFail { s with fdt := fd }
            have h4 := noSock_tryLog_fields siteAddclockFail
              { tryLog siteNodelayFail { s with fdt := fd } with
                io_fd := (tryLog siteNodelayFail { s with fdt := fd }).fdt, fdt := -1 }
            exact ⟨h4.1, h4.2.1, h4.2.2.1.trans h3.2.2.2,
                   h4.2.2.2.trans (congrArg nextPreset h3.2.2.2)⟩
          | true =>
            exact noSock_tryLog_fields siteAddclockFail
              { { s with fdt := fd } with io_fd := fd, fdt := -1 }

theorem gpsd_init_socket_abort (gaddrs : List Nat) (env : SockEnv) (s : DState)
    (ha : (if s.addrRest.isEmpty then gaddrs else s.addrRest) ≠ [])
    (hb : sockAborted env) :
    (gpsd_init_socket gaddrs env s).io_fd = -1 ∧
    (gpsd_init_socket gaddrs env s).fdt = -1 ∧
    (gpsd_init_socket gaddrs env s).tickover = s.tickpres ∧
    (gpsd_init_socket gaddrs env s).tickpres = nextPreset s.tickpres := by
  obtain ⟨a, tl, heq⟩ := List.exists_cons_of_ne_nil ha
  simp only [gpsd_init_socket, heq]
  simpa using gpsd_init_socket_conn_abort env { s with addrRest := tl } hb

theorem gpsd_init_socket_conn_abort_events (env : SockEnv) (s : DState)
    (hb : sockAborted env)
    (hp : (syslogok (flag3Of s) s.logthrottle).1 = true) :
    ∃ sites : List Nat, sites ≠ [] ∧
      (gpsd_init_socket_conn env s).events = s.events ++ sites.map Ev.syslog := by
  rcases env with ⟨sfd, fok, nok, cres, aok⟩
  simp only [sockAborted] at hb
  cases sfd with
  | none =>
    refine ⟨[siteSocketFail], by simp, ?_⟩
    have e1 := tryLog_grant siteSocketFail { s with fdt := -1 } hp
    exact ((noSocketTail_fields (tryLog siteSocketFail { s with fdt := -1 })).2.2.2.2).trans
      (by rw [e1]; simp)
  | some fd =>
    cases fok with
    | false =>
      refine ⟨[siteFcntlFail], by simp, ?_⟩
      have e1 := tryLog_grant siteFcntlFail { s with fdt := fd } hp
      exact ((noSocketTail_fields (tryLog siteFcntlFail { s with fdt := fd })).2.2.2.2).trans
        (by rw [e1]; simp)
    | true =>
      cases cres with
      | inProgress => rcases hb with h | h | h | ⟨h, _⟩ <;> simp_all
      | err =>
        cases nok with
        | false =>
          refine ⟨[siteNodelayFail, siteConnectFail], by simp, ?_⟩
          have e1 := tryLog_grant siteNodelayFail { s with fdt := fd } hp
          have hp2 : (syslogok (flag3Of (tryLog siteNodelayFail { s with fdt := fd }))
              (tryLog siteNodelayFail { s with fdt := fd }).logthrottle).1 = true := by
            rw [e1]; exact syslogok_full _
          have e2 := tryLog_grant siteConnectFail
            (tryLog siteNodelayFail { s with fdt := fd }) hp2
          refine ((noSocketTail_fields (tryLog siteConnectFail
            (tryLog siteNodelayFail { s with fdt := fd }))).2.2.2.2).trans ?_
          rw [e2, e1]
          simp
        | true =>
          refine ⟨[siteConnectFail], by simp, ?_⟩
          have e1 := tryLog_grant siteConnectFail { s with fdt := fd } hp
          exact ((noSocketTail_fields (tryLog siteConnectFail
            { s with fdt := fd })).2.2.2.2).trans (by rw [e1]; simp)
      | ok =>
        cases aok with
        | true => rcases hb with h | h | h | ⟨_, h⟩ <;> simp_all
        | false =>
          cases nok with
          | false =>
            refine ⟨[siteNodelayFail, siteAddclockFail], by simp, ?_⟩
            have e1 := tryLog_grant siteNodelayFail { s with fdt := fd } hp
            have hp2 : (syslogok (flag3Of { tryLog siteNodelayFail { s with fdt := fd } with
                io_fd := (tryLog siteNodelayFail { s with fdt := fd }).fdt, fdt := -1 })
                ({ tryLog siteNodelayFail { s with fdt := fd } with
                   io_fd := (tryLog siteNodelayFail { s with fdt := fd }).fdt,
                   fdt := -1 }).logthrottle).1 = true := by
              show (syslogok (flag3Of (tryLog siteNodelayFail { s with fdt := fd }))
                (tryLog siteNodelayFail { s with fdt := fd }).logthrottle).1 = true
              rw [e1]; exact syslogok_full _
            have e2 := tryLog_grant siteAddclockFail
              { tryLog siteNodelayFail { s with fdt := fd } with
                io_fd := (tryLog siteNodelayFail { s with fdt := fd }).fdt, fdt := -1 } hp2
            refine ((noSocketTail_fields (tryLog siteAddclockFail
              { tryLog siteNodelayFail { s with fdt := fd } with
                io_fd := (tryLog siteNodelayFail { s with fdt := fd }).fdt,
                fdt := -1 })).2.2.2.2).trans ?_
            rw [e2]
            show (tryLog siteNodelayFail { s with fdt := fd }).events
                ++ [Ev.syslog siteAddclockFail]
              = s.events ++ [siteNodelayFail, siteAddclockFail].map Ev.syslog
            rw [e1]
            simp
          | true =>
            refine ⟨[siteAddclockFail], by simp, ?_⟩
            have e1 := tryLog_grant siteAddclockFail
              { { s with fdt := fd } with io_fd := fd, fdt := -1 } hp
            exact ((noSocketTail_fields (tryLog siteAddclockFail
              { { s with fdt := fd } with io_fd := fd, fdt := -1 })).2.2.2.2).trans
              (by rw [e1]; try simp)

theorem eval_serial_samples (s : DState) :
    ((eval_serial s).primSamples = s.primSamples ∨
      ∃ p, (eval_serial s).primSamples = s.primSamples ++ [p]) ∧
    (eval_serial s).secSamples = s.secSamples := by
  simp only [eval_serial, add_clock_sample_prim, refclock_process_offset_prim]
  split_ifs <;> simp

theorem eval_strict_samples (s : DState) :
    ((eval_strict s).primSamples = s.primSamples ∨
      ∃ p, (eval_strict s).primSamples = s.primSamples ++ [p]) ∧
    (eval_strict s).secSamples = s.secSamples := by
  simp only [eval_strict, add_clock_sample_prim, refclock_process_offset_prim]
  split_ifs <;> simp

theorem eval_auto_samples (s : DState) :
    ((eval_auto s).primSamples = s.primSamples ∨
      ∃ p, (eval_auto s).primSamples = s.primSamples ++ [p]) ∧
    (eval_auto s).secSamples = s.secSamples := by
  simp only [eval_auto]
  split_ifs <;>
    first
      | exact eval_serial_samples _
      | exact eval_strict_samples _
      | simp

theorem eval_pps_secondary_samples (s : DState) :
    ((eval_pps_secondary s).secSamples = s.secSamples ∨
      ∃ p, (eval_pps_secondary s).secSamples = s.secSamples ++ [p]) ∧
    (eval_pps_secondary s).primSamples = s.primSamples := by
  simp only [eval_pps_secondary, add_clock_sample_sec, refclock_process_offset_sec]
  split_ifs <;> simp

theorem tryLog_samples (site : Nat) (s : DState) :
    (tryLog site s).primSamples = s.primSamples ∧
    (tryLog site s).secSamples = s.secSamples := by
  simp only [tryLog]
  split_ifs <;> simp

theorem process_watch_samples (jr : JsonRec) (s : DState) :
    (process_watch jr s).primSamples = s.primSamples ∧
    (process_watch jr s).secSamples = s.secSamples := by
  simp only [process_watch]
  cases jr.device with
  | none => simp
  | some p =>
    by_cases h1 : p ≠ s.device
    · simp [h1]
    · by_cases h2 : jr.enable = some true ∧ jr.json = some true <;>
        simp [h1, h2]

theorem process_version_samples (env : PEnv) (jr : JsonRec) (s : DState) :
    (process_version env jr s).primSamples = s.primSamples ∧
    (process_version env jr s).secSamples = s.secSamples := by
  simp only [process_version]
  cases jr.protoMajor with
  | none => cases jr.protoMinor <;> exact tryLog_samples _ _
  | some hi =>
    cases jr.protoMinor with
    | none => exact tryLog_samples _ _
    | some lo =>
      split_ifs <;>
        first
          | exact ⟨(tryLog_samples _ _).1, (tryLog_samples _ _).2⟩
          | simp

theorem process_tpv_samples (jr : JsonRec) (rt : Nat) (s : DState) :
    (process_tpv jr rt s).primSamples = s.primSamples ∧
    (process_tpv jr rt s).secSamples = s.secSamples := by
  simp only [process_tpv, tpvNoFix, save_ltc_prim]
  cases jr.tpvTime with
  | none => split_ifs <;> simp
  | some gt =>
    split_ifs <;> try simp
    all_goals (split <;> simp)

theorem process_pps_samples (jr : JsonRec) (rt : Nat) (s : DState) :
    (process_pps jr rt s).primSamples = s.primSamples ∧
    (process_pps jr rt s).secSamples = s.secSamples := by
  simp only [process_pps, save_ltc_sec]
  split_ifs <;> try simp
  all_goals (split <;> try simp)
  all_goals (split <;> try simp)
  all_goals split_ifs <;> simp

theorem process_toff_samples (jr : JsonRec) (rt : Nat) (s : DState) :
    (process_toff jr rt s).primSamples = s.primSamples ∧
    (process_toff jr rt s).secSamples = s.secSamples := by
  simp only [process_toff, save_ltc_prim]
  split_ifs <;> try simp
  all_goals (split <;> try simp)
  all_goals (split <;> try simp)

theorem staleCheck_samples (s : DState) :
    (staleCheck s).primSamples = s.primSamples ∧
    (staleCheck s).secSamples = s.secSamples := by
  simp only [staleCheck]
  split_ifs <;> simp

theorem modeDispatch_samples (s : DState) :
    ((modeDispatch s).primSamples = s.primSamples ∨
      ∃ p, (modeDispatch s).primSamples = s.primSamples ++ [p]) ∧
    (modeDispatch s).secSamples = s.secSamples := by
  simp only [modeDispatch]
  split_ifs <;>
    first
      | exact eval_serial_samples _
      | exact eval_strict_samples _
      | exact eval_auto_samples _

theorem gpsdAfterDispatch_samples (s : DState) :
    ((gpsdAfterDispatch s).primSamples = s.primSamples ∨
      ∃ p, (gpsdAfterDispatch s).primSamples = s.primSamples ++ [p]) ∧
    ((gpsdAfterDispatch s).secSamples = s.secSamples ∨
      ∃ p, (gpsdAfterDispatch s).secSamples = s.secSamples ++ [p]) := by
  have hcore : ∀ t : DState,
      ((modeDispatch (staleCheck t)).primSamples = t.primSamples ∨
        ∃ p, (modeDispatch (staleCheck t)).primSamples = t.primSamples ++ [p]) ∧
      (modeDispatch (staleCheck t)).secSamples = t.secSamples := by
    intro t
    have h1 := staleCheck_samples t
    have h2 := modeDispatch_samples (staleCheck t)
    constructor
    · rcases h2.1 with h | ⟨p, h⟩
      · exact Or.inl (h.trans h1.1)
      · exact Or.inr ⟨p, by rw [h, h1.1]⟩
    · exact h2.2.trans h1.2
  have e1 : ({ s with tc_recv := s.tc_recv + 1 } : DState).primSamples
      = s.primSamples := rfl
  have e2 : ({ s with tc_recv := s.tc_recv + 1 } : DState).secSamples
      = s.secSamples := rfl
  simp only [gpsdAfterDispatch]
  by_cases hp : s.hasPpsPeer = true
  · rw [if_pos hp]
    have h3 := eval_pps_secondary_samples { s with tc_recv := s.tc_recv + 1 }
    have h4 := hcore (eval_pps_secondary { s with tc_recv := s.tc_recv + 1 })
    constructor
    · rcases h4.1 with h | ⟨p, h⟩
      · exact Or.inl ((h.trans h3.2).trans e1)
      · exact Or.inr ⟨p, by rw [h, h3.2, e1]⟩
    · rcases h3.1 with h | ⟨p, h⟩
      · exact Or.inl ((h4.2.trans h).trans e2)
      · exact Or.inr ⟨p, by rw [h4.2, h, e2]⟩
  · rw [if_neg hp]
    have h4 := hcore { s with tc_recv := s.tc_recv + 1 }
    constructor
    · rcases h4.1 with h | ⟨p, h⟩
      · exact Or.inl (h.trans e1)
      · exact Or.inr ⟨p, by rw [h, e1]⟩
    · exact Or.inl (h4.2.trans e2)

theorem gpsd_parse_samples (env : PEnv) (parsed : Option JsonRec) (rtime : Nat)
    (s : DState) :
    ((gpsd_parse env parsed rtime s).primSamples = s.primSamples ∨
      ∃ p, (gpsd_parse env parsed rtime s).primSamples = s.primSamples ++ [p]) ∧
    ((gpsd_parse env parsed rtime s).secSamples = s.secSamples ∨
      ∃ p, (gpsd_parse env parsed rtime s).secSamples = s.secSamples ++ [p]) := by
  have hcomb : ∀ (t : DState)
      (h1 : t.primSamples = s.primSamples ∧ t.secSamples = s.secSamples),
      ((gpsdAfterDispatch t).primSamples = s.primSamples ∨
        ∃ p, (gpsdAfterDispatch t).primSamples = s.primSamples ++ [p]) ∧
      ((gpsdAfterDispatch t).secSamples = s.secSamples ∨
        ∃ p, (gpsdAfterDispatch t).secSamples = s.secSamples ++ [p]) := by
    intro t h1
    have h2 := gpsdAfterDispatch_samples t
    constructor
    · rcases h2.1 with h | ⟨p, h⟩
      · exact Or.inl (h.trans h1.1)
      · exact Or.inr ⟨p, by rw [h, h1.1]⟩
    · rcases h2.2 with h | ⟨p, h⟩
      · exact Or.inl (h.trans h1.2)
      · exact Or.inr ⟨p, by rw [h, h1.2]⟩
  cases parsed with
  | none => simp [gpsd_parse]
  | some jr =>
    cases hcls : jr.cls with
    | none => simp [gpsd_parse, hcls]
    | some c =>
      simp only [gpsd_parse, hcls]
      split_ifs <;>
        first
          | exact hcomb _ (process_tpv_samples jr rtime s)
          | exact hcomb _ (process_pps_samples jr rtime s)
          | exact hcomb _ (process_toff_samples jr rtime s)
          | exact hcomb _ (process_version_samples env jr s)
          | exact hcomb _ (process_watch_samples jr s)
          | simp

theorem recvStep_store (edst : Nat) (s : RState) (c : Nat) (hc : ¬ c = 10)
    (hw : wsLead c = true) (hlt : s.buf.length < edst) :
    recvStep edst s c = { s with buf := s.buf ++ [c] } := by
  simp only [recvStep]
  rw [if_neg hc, if_pos hlt, if_pos (by simp [hw])]

theorem foldl_store (c : Nat) (hc : ¬ c = 10) (hw : wsLead c = true) :
    ∀ (n edst : Nat) (s : RState), s.buf.length + n ≤ edst →
      ((List.replicate n c).foldl (recvStep edst) s).buf
          = s.buf ++ List.replicate n c ∧
      ((List.replicate n c).foldl (recvStep edst) s).lines = s.lines := by
  intro n
  induction n with
  | zero => intro edst s h; simp
  | succ n ih =>
    intro edst s h
    rw [List.replicate_succ, List.foldl_cons,
        recvStep_store edst s c hc hw (by omega)]
    have h2 : ({ s with buf := s.buf ++ [c] } : RState).buf.length + n ≤ edst := by
      show (s.buf ++ [c]).length + n ≤ edst
      simp only [List.length_append, List.length_cons, List.length_nil]
      omega
    obtain ⟨hb, hl⟩ := ih edst { s with buf := s.buf ++ [c] } h2
    refine ⟨?_, hl⟩
    rw [hb]
    show s.buf ++ [c] ++ List.replicate n c = s.buf ++ List.replicate (n + 1) c
    simp [List.replicate_succ]

/-- C8: the claimed line-assembly bound fails.  The store limit of the loop
is computed from the buffer length saved at entry - edst = buffer + buflen +
sizeof(buffer) - 1 - not from the buffer start, so a partial line carried
over between two reads extends the writable end past the MAX_PDU_LEN byte
array.  A first chunk of MAX_PDU_LEN - 1 printable bytes with no line feed
fills the buffer up to the claimed bound; one more byte in the next read is
still stored, the saved length reaches MAX_PDU_LEN, and the invariant of the
claim is false at this reachable state. -/
theorem gpsd_receive_buffer_overflow :
    (MAX_PDU_LEN - 1 <
      (gpsd_receive [65] (gpsd_receive (List.replicate (MAX_PDU_LEN - 1) 65)
        (⟨[], [], 0⟩ : RState))).buf.length) ∧
    recvInvB (gpsd_receive [65] (gpsd_receive (List.replicate (MAX_PDU_LEN - 1) 65)
        (⟨[], [], 0⟩ : RState))) = false := by
  have hbuf : ∀ (ch : List Nat) (s : RState),
      (gpsd_receive ch s).buf
        = (ch.foldl (recvStep (s.buf.length + MAX_PDU_LEN - 1)) s).buf :=
    fun ch s => rfl
  have hA : (gpsd_receive (List.replicate (MAX_PDU_LEN - 1) 65)
      (⟨[], [], 0⟩ : RState)).buf = List.replicate (MAX_PDU_LEN - 1) 65 := by
    rw [hbuf, (foldl_store 65 (by decide) (by decide) (MAX_PDU_LEN - 1)
      ((⟨[], [], 0⟩ : RState).buf.length + MAX_PDU_LEN - 1)
      (⟨[], [], 0⟩ : RState) (by decide)).1]
    simp
  have hlen1 : (gpsd_receive (List.replicate (MAX_PDU_LEN - 1) 65)
      (⟨[], [], 0⟩ : RState)).buf.length = MAX_PDU_LEN - 1 := by
    rw [hA]; simp
  have hB : (gpsd_receive [65] (gpsd_receive (List.replicate (MAX_PDU_LEN - 1) 65)
      (⟨[], [], 0⟩ : RState))).buf.length = MAX_PDU_LEN := by
    rw [hbuf]
    have h2 := (foldl_store 65 (by decide) (by decide) 1
      ((gpsd_receive (List.replicate (MAX_PDU_LEN - 1) 65)
        (⟨[], [], 0⟩ : RState)).buf.length + MAX_PDU_LEN - 1)
      (gpsd_receive (List.replicate (MAX_PDU_LEN - 1) 65) (⟨[], [], 0⟩ : RState))
      (by rw [hlen1]; decide)).1
    simp only [List.replicate_one] at h2
    rw [h2, List.length_append, hlen1]
    decide
  refine ⟨?_, ?_⟩
  · rw [hB]; decide
  · have hd : decide ((gpsd_receive [65]
        (gpsd_receive (List.replicate (MAX_PDU_LEN - 1) 65)
          (⟨[], [], 0⟩ : RState))).buf.length ≤ MAX_PDU_LEN - 1) = false := by
      rw [decide_eq_false_iff_not, hB]
      decide
    simp only [recvInvB, hd, Bool.false_and]

theorem eval_serial_spec (s : DState) :
    ((eval_serial s).primSamples =
      if s.fl_ibt then s.primSamples ++ [(s.ibt_stamp, s.ibt_recvt)]
      else s.primSamples) ∧
    ((eval_serial s).prim_precision =
      if s.fl_ibt then s.ibt_prec else s.prim_precision) ∧
    (eval_serial s).fl_ibt = false := by
  simp only [eval_serial, add_clock_sample_prim, refclock_process_offset_prim]
  split_ifs <;> simp_all

theorem eval_strict_spec (s : DState) :
    ((eval_strict s).primSamples =
      if s.fl_ibt && s.fl_pps then s.primSamples ++ [(s.ibt_stamp, s.pps_recvt)]
      else s.primSamples) ∧
    ((eval_strict s).prim_precision =
      if s.fl_ibt && s.fl_pps then s.pps_prec else s.prim_precision) ∧
    ((eval_strict s).fl_ibt && (eval_strict s).fl_pps) = false := by
  simp only [eval_strict, add_clock_sample_prim, refclock_process_offset_prim]
  split_ifs <;> simp_all

theorem eval_pps_secondary_spec (s : DState) :
    ((eval_pps_secondary s).secSamples =
      if s.fl_pps2 then s.secSamples ++ [(s.pps_stamp2, s.pps_recvt2)]
      else s.secSamples) ∧
    ((eval_pps_secondary s).sec_precision =
      if s.fl_pps2 then s.pps_prec else s.sec_precision) ∧
    (eval_pps_secondary s).fl_pps2 = false := by
  simp only [eval_pps_secondary, add_clock_sample_sec, refclock_process_offset_sec]
  split_ifs <;> simp_all

theorem eval_serial_keeps (s : DState) :
    (eval_serial s).ppscount = s.ppscount ∧
    (eval_serial s).fl_rawibt = s.fl_rawibt := by
  simp only [eval_serial, add_clock_sample_prim, refclock_process_offset_prim]
  split_ifs <;> simp

theorem eval_strict_keeps (s : DState) :
    (eval_strict s).ppscount = s.ppscount ∧
    (eval_strict s).fl_rawibt = s.fl_rawibt := by
  simp only [eval_strict, add_clock_sample_prim, refclock_process_offset_prim]
  split_ifs <;> simp

theorem eval_auto_rawibt_spec (s : DState) :
    (eval_auto s).fl_rawibt = s.fl_rawibt ∨
    ((eval_auto s).ppscount = PPS_MAXCOUNT ∧ (eval_auto s).fl_rawibt = false ∧
      s.fl_rawibt = true) ∨
    ((eval_auto s).ppscount = 0 ∧ (eval_auto s).fl_rawibt = true ∧
      s.fl_rawibt = false) := by
  simp only [eval_auto]
  split_ifs <;>
    (first
      | rw [(eval_serial_keeps _).1, (eval_serial_keeps _).2]
      | rw [(eval_strict_keeps _).1, (eval_strict_keeps _).2]
      | skip) <;> simp_all

theorem eval_auto_count_spec (s : DState) :
    (eval_auto s).ppscount =
      if !s.fl_ibt then s.ppscount
      else if s.fl_pps then min PPS_MAXCOUNT (s.ppscount + PPS_INCCOUNT)
      else max 0 (s.ppscount - PPS_DECCOUNT) := by
  simp only [eval_auto]
  split_ifs <;>
    (first
      | rw [(eval_serial_keeps _).1]
      | rw [(eval_strict_keeps _).1]
      | skip) <;> simp_all

theorem eval_serial_idem (s : DState) :
    (eval_serial (eval_serial s)).primSamples = (eval_serial s).primSamples := by
  rw [(eval_serial_spec (eval_serial s)).1, (eval_serial_spec s).2.2]
  simp

theorem eval_strict_idem (s : DState) :
    (eval_strict (eval_strict s)).primSamples = (eval_strict s).primSamples := by
  rw [(eval_strict_spec (eval_strict s)).1, (eval_strict_spec s).2.2]
  simp

theorem eval_pps_secondary_idem (s : DState) :
    (eval_pps_secondary (eval_pps_secondary s)).secSamples
      = (eval_pps_secondary s).secSamples := by
  rw [(eval_pps_secondary_spec (eval_pps_secondary s)).1,
      (eval_pps_secondary_spec s).2.2]
  simp

/-- C2: every sample the driver feeds into the refclock core goes through
the single add-sample interface (add_clock_sample over
refclock_process_offset) as a (reference-time stamp, receive-time) pair plus
a precision value, bypassing any 4-timestamp computation: eval_serial feeds
(ibt_stamp, ibt_recvt) exactly when the IBT pair is valid, eval_strict feeds
(ibt_stamp, pps_recvt) exactly when both IBT and PPS are valid, the
secondary channel feeds (pps_stamp2, pps_recvt2) exactly when the pulse is
valid; feeding consumes the validity flags, so re-running an evaluation
feeds nothing, and one gpsd_parse call feeds at most one sample per
channel. -/
theorem single_add_sample_interface (s : DState) :
    ((eval_serial s).primSamples =
      if s.fl_ibt then s.primSamples ++ [(s.ibt_stamp, s.ibt_recvt)]
      else s.primSamples) ∧
    ((eval_serial s).prim_precision =
      if s.fl_ibt then s.ibt_prec else s.prim_precision) ∧
    (eval_serial s).fl_ibt = false ∧
    (eval_serial (eval_serial s)).primSamples = (eval_serial s).primSamples ∧
    ((eval_strict s).primSamples =
      if s.fl_ibt && s.fl_pps then s.primSamples ++ [(s.ibt_stamp, s.pps_recvt)]
      else s.primSamples) ∧
    ((eval_strict s).prim_precision =
      if s.fl_ibt && s.fl_pps then s.pps_prec else s.prim_precision) ∧
    ((eval_strict s).fl_ibt && (eval_strict s).fl_pps) = false ∧
    (eval_strict (eval_strict s)).primSamples = (eval_strict s).primSamples ∧
    ((eval_pps_secondary s).secSamples =
      if s.fl_pps2 then s.secSamples ++ [(s.pps_stamp2, s.pps_recvt2)]
      else s.secSamples) ∧
    ((eval_pps_secondary s).sec_precision =
      if s.fl_pps2 then s.pps_prec else s.sec_precision) ∧
    (eval_pps_secondary s).fl_pps2 = false ∧
    (eval_pps_secondary (eval_pps_secondary s)).secSamples
      = (eval_pps_secondary s).secSamples ∧
    (∀ (env : PEnv) (parsed : Option JsonRec) (rtime : Nat),
      ((gpsd_parse env parsed rtime s).primSamples = s.primSamples ∨
        ∃ p, (gpsd_parse env parsed rtime s).primSamples = s.primSamples ++ [p]) ∧
      ((gpsd_parse env parsed rtime s).secSamples = s.secSamples ∨
        ∃ p, (gpsd_parse env parsed rtime s).secSamples = s.secSamples ++ [p])) :=
  ⟨(eval_serial_spec s).1, (eval_serial_spec s).2.1, (eval_serial_spec s).2.2,
   eval_serial_idem s,
   (eval_strict_spec s).1, (eval_strict_spec s).2.1, (eval_strict_spec s).2.2,
   eval_strict_idem s,
   (eval_pps_secondary_spec s).1, (eval_pps_secondary_spec s).2.1,
   (eval_pps_secondary_spec s).2.2, eval_pps_secondary_idem s,
   fun env parsed rtime => gpsd_parse_samples env parsed rtime s⟩

/-- C10: in AUTO mode the PPS credit account moves by PPS_INCCOUNT per good
pulse and PPS_DECCOUNT per missing pulse, clamped into [0, PPS_MAXCOUNT] (so
the bounds are invariant), and the feeding-mode flag fl_rawibt changes only
at the endpoints: cleared (switch to PPS-augmented feeding) only when the
account reaches PPS_MAXCOUNT, set (switch to TPV-only feeding) only when it
reaches 0. -/
theorem eval_auto_hysteresis (s : DState) :
    ((eval_auto s).ppscount =
      if !s.fl_ibt then s.ppscount
      else if s.fl_pps then min PPS_MAXCOUNT (s.ppscount + PPS_INCCOUNT)
      else max 0 (s.ppscount - PPS_DECCOUNT)) ∧
    (0 ≤ s.ppscount → s.ppscount ≤ PPS_MAXCOUNT →
      0 ≤ (eval_auto s).ppscount ∧ (eval_auto s).ppscount ≤ PPS_MAXCOUNT) ∧
    ((eval_auto s).fl_rawibt = s.fl_rawibt ∨
      ((eval_auto s).ppscount = PPS_MAXCOUNT ∧ (eval_auto s).fl_rawibt = false ∧
        s.fl_rawibt = true) ∨
      ((eval_auto s).ppscount = 0 ∧ (eval_auto s).fl_rawibt = true ∧
        s.fl_rawibt = false)) := by
  refine ⟨eval_auto_count_spec s, ?_, eval_auto_rawibt_spec s⟩
  intro h1 h2
  rw [eval_auto_count_spec s]
  simp only [PPS_MAXCOUNT, PPS_INCCOUNT, PPS_DECCOUNT] at h2 ⊢
  split_ifs <;> constructor <;> omega

/-- Witness for C10 at a concrete state three credits below the cap: the
account lands exactly on PPS_MAXCOUNT and stays within bounds. -/
theorem eval_auto_hysteresis_witness :
    0 ≤ (eval_auto autoWitState).ppscount ∧
    (eval_auto autoWitState).ppscount ≤ PPS_MAXCOUNT :=
  (eval_auto_hysteresis autoWitState).2.1 (by decide) (by decide)

/-- C4: when the connection to GPSD is lost (gpsd_stop_socket) or an attempt
fails (the no_socket exit of gpsd_init_socket), the countdown to the next
attempt is loaded from the timeout preset and the preset grows for the next
attempt, strictly while below the maximum, never beyond TICKOVER_HIGH, and
any preset value converges to TICKOVER_HIGH within 25 failed attempts and is
then absorbed there; between attempts the timer decrements the countdown
once per second, so unreachable sources are polled ever more slowly. -/
theorem backoff_converges_to_max :
    (∀ s : DState, (gpsd_stop_socket s).tickover = s.tickpres ∧
      (gpsd_stop_socket s).tickpres = nextPreset s.tickpres) ∧
    (∀ (gaddrs : List Nat) (env : SockEnv) (s : DState),
      (if s.addrRest.isEmpty then gaddrs else s.addrRest) ≠ [] → sockAborted env →
      (gpsd_init_socket gaddrs env s).tickover = s.tickpres ∧
      (gpsd_init_socket gaddrs env s).tickpres = nextPreset s.tickpres) ∧
    (∀ t, t < TICKOVER_HIGH → t < nextPreset t) ∧
    (∀ t, nextPreset t ≤ TICKOVER_HIGH) ∧
    (nextPreset TICKOVER_HIGH = TICKOVER_HIGH) ∧
    (∀ t, nextPreset^[25] t = TICKOVER_HIGH) ∧
    (∀ (gaddrs : List Nat) (env : TimerEnv) (s : DState),
      s.io_fd = -1 → s.fdt = -1 → 2 ≤ s.tickover →
      (timer_primary gaddrs env s).tickover = s.tickover - 1) := by
  refine ⟨gpsd_stop_socket_preset, ?_, ?_, nextPreset_le, ?_, ?_, ?_⟩
  · intro gaddrs env s ha hb
    exact ⟨(gpsd_init_socket_abort gaddrs env s ha hb).2.2.1,
           (gpsd_init_socket_abort gaddrs env s ha hb).2.2.2⟩
  · intro t ht
    simp only [nextPreset, TICKOVER_HIGH] at ht ⊢
    omega
  · decide
  · intro t
    rw [Function.iterate_succ_apply]
    refine nextPreset_reach 24 (nextPreset t) (nextPreset_le t) ?_
    simp only [TICKOVER_HIGH]
    omega
  · intro gaddrs env s hio hfdt htick
    have h4 : s.tickover - 1 ≠ 0 := by omega
    simp only [timer_primary]
    by_cases hc : s.tickover - 1 = 4 <;> simp [hc, hio, hfdt, h4]

/-- Witness for C4 at concrete inputs: a failed attempt from the initial
preset, and a countdown tick on a disconnected unit. -/
theorem backoff_converges_to_max_witness :
    ((gpsd_init_socket [0] ⟨none, true, true, ConnRes.ok, true⟩ baseState).tickover
        = baseState.tickpres ∧
      (gpsd_init_socket [0] ⟨none, true, true, ConnRes.ok, true⟩ baseState).tickpres
        = nextPreset baseState.tickpres) ∧
    5 < nextPreset 5 ∧
    (timer_primary [] ⟨⟨none, true, true, ConnRes.err, true⟩, ⟨false, none, true⟩⟩
      { baseState with tickover := 9 }).tickover = 8 := by
  refine ⟨backoff_converges_to_max.2.1 [0] ⟨none, true, true, ConnRes.ok, true⟩
      baseState (by decide) (Or.inl rfl), ?_, ?_⟩
  · exact backoff_converges_to_max.2.2.1 5 (by decide)
  · exact backoff_converges_to_max.2.2.2.2.2.2 []
      ⟨⟨none, true, true, ConnRes.err, true⟩, ⟨false, none, true⟩⟩
      { baseState with tickover := 9 } (by decide) (by decide) (by decide)

/-- C5 counterexample: a failure to configure the socket option TCP_NODELAY
is a resource error during socket configuration, but the driver only logs it
and proceeds with the very same attempt: at this concrete input the connect
succeeds, the unit ends up connected (io_fd = 5) and the retry countdown and
preset are left untouched rather than reset. -/
theorem nodelay_failure_does_not_reset_countdown :
    (gpsd_init_socket [0] ⟨some 5, true, false, ConnRes.ok, true⟩ baseState).io_fd = 5 ∧
    (gpsd_init_socket [0] ⟨some 5, true, false, ConnRes.ok, true⟩ baseState).tickover = 0 ∧
    (gpsd_init_socket [0] ⟨some 5, true, false, ConnRes.ok, true⟩ baseState).tickpres
      = TICKOVER_LOW ∧
    Ev.syslog siteNodelayFail
      ∈ (gpsd_init_socket [0] ⟨some 5, true, false, ConnRes.ok, true⟩ baseState).events := by
  decide

/-- C5 (amended): on a resource error that aborts the connection attempt —
failure to create the socket, to make it non-blocking, to connect (other
than a pending asynchronous connect), or to register with the I/O engine —
gpsd_init_socket closes both descriptors, reloads the retry countdown from
the preset and bumps the preset, so a later timer tick starts a fresh
attempt, and when the throttle gate is open the error is logged; the routine
always returns normally.  A TCP_NODELAY failure is only logged and the
attempt proceeds. -/
theorem init_socket_resource_error_recovery (gaddrs : List Nat) (env : SockEnv)
    (s : DState)
    (ha : (if s.addrRest.isEmpty then gaddrs else s.addrRest) ≠ [])
    (hb : sockAborted env) :
    (gpsd_init_socket gaddrs env s).io_fd = -1 ∧
    (gpsd_init_socket gaddrs env s).fdt = -1 ∧
    (gpsd_init_socket gaddrs env s).tickover = s.tickpres ∧
    (gpsd_init_socket gaddrs env s).tickpres = nextPreset s.tickpres ∧
    (logPermitted s → ∃ sites : List Nat, sites ≠ [] ∧
      (gpsd_init_socket gaddrs env s).events = s.events ++ sites.map Ev.syslog) := by
  refine ⟨(gpsd_init_socket_abort gaddrs env s ha hb).1,
          (gpsd_init_socket_abort gaddrs env s ha hb).2.1,
          (gpsd_init_socket_abort gaddrs env s ha hb).2.2.1,
          (gpsd_init_socket_abort gaddrs env s ha hb).2.2.2, ?_⟩
  intro hp
  have hgrant : (syslogok (flag3Of s) s.logthrottle).1 = true := by
    rcases hp with hp | hp | hp <;> simp [syslogok, hp]
  obtain ⟨a, tl, heq⟩ := List.exists_cons_of_ne_nil ha
  simp only [gpsd_init_socket, heq]
  obtain ⟨sites, hne, hev⟩ :=
    gpsd_init_socket_conn_abort_events env { s with addrRest := tl } hb hgrant
  exact ⟨sites, hne, hev⟩

/-- Witness for C5 at a concrete aborted attempt (socket creation fails,
throttle gate open): descriptors cleared, countdown reloaded, preset bumped
and the error logged. -/
theorem init_socket_resource_error_recovery_witness :
    (gpsd_init_socket [0] ⟨none, true, true, ConnRes.ok, true⟩ baseState).io_fd = -1 ∧
    (gpsd_init_socket [0] ⟨none, true, true, ConnRes.ok, true⟩ baseState).fdt = -1 ∧
    (gpsd_init_socket [0] ⟨none, true, true, ConnRes.ok, true⟩ baseState).tickover
      = baseState.tickpres ∧
    (gpsd_init_socket [0] ⟨none, true, true, ConnRes.ok, true⟩ baseState).tickpres
      = nextPreset baseState.tickpres ∧
    (∃ sites : List Nat, sites ≠ [] ∧
      (gpsd_init_socket [0] ⟨none, true, true, ConnRes.ok, true⟩ baseState).events
        = baseState.events ++ sites.map Ev.syslog) := by
  have h := init_socket_resource_error_recovery [0] ⟨none, true, true, ConnRes.ok, true⟩
    baseState (by decide) (Or.inl rfl)
  exact ⟨h.1, h.2.1, h.2.2.1, h.2.2.2.1, h.2.2.2.2 (Or.inr (Or.inl rfl))⟩


theorem digitVal_le (c : Char) (h : c.isDigit = true) : digitVal c ≤ 9 := by
  simp only [Char.isDigit, Bool.and_eq_true, decide_eq_true_eq] at h
  obtain ⟨h1, h2⟩ := h
  have g1 : (48 : Nat) ≤ c.val.toNat := h1
  have g2 : c.val.toNat ≤ (57 : Nat) := h2
  simp only [digitVal, Char.toNat]
  omega

theorem natValFrom_cons (a : Nat) (c : Char) (ds : List Char) :
    natValFrom a (c :: ds) = natValFrom (a * 10 + digitVal c) ds := rfl

theorem natValFrom_ge (ds : List Char) : ∀ a : Nat, a ≤ natValFrom a ds := by
  induction ds with
  | nil => intro a; simp [natValFrom]
  | cons c t ih =>
    intro a
    rw [natValFrom_cons]
    exact le_trans (by omega) (ih (a * 10 + digitVal c))

theorem sjLoop_rest (L : Nat) :
    ∀ (cs : List Char) (accu : Nat) (f : Bool),
      (sjLoop L cs accu f).2.2 = cs.dropWhile Char.isDigit := by
  intro cs
  induction cs with
  | nil => intro accu f; simp [sjLoop, List.dropWhile]
  | cons c t ih =>
    intro accu f
    by_cases hc : c.isDigit = true
    · rw [List.dropWhile_cons_of_pos hc]
      simp only [sjLoop]
      rw [if_pos hc]
      exact ih _ _
    · rw [List.dropWhile_cons_of_neg hc]
      simp only [sjLoop]
      rw [if_neg hc]

theorem sjLoop_true (L : Nat) :
    ∀ (cs : List Char) (accu : Nat), (sjLoop L cs accu true).2.1 = true := by
  intro cs
  induction cs with
  | nil => intro accu; simp [sjLoop]
  | cons c t ih =>
    intro accu
    by_cases hc : c.isDigit = true
    · simp only [sjLoop]
      rw [if_pos hc]
      simp only [Bool.true_or]
      exact ih _
    · simp only [sjLoop]
      rw [if_neg hc]

theorem sjLoop_spec (L : Nat) (hL : L ≤ 2 ^ 63) :
    ∀ (cs : List Char) (accu : Nat), accu ≤ L →
      ((sjLoop L cs accu false).2.1 =
        decide (L < natValFrom accu (cs.takeWhile Char.isDigit))) ∧
      (natValFrom accu (cs.takeWhile Char.isDigit) ≤ L →
        (sjLoop L cs accu false).1 =
          natValFrom accu (cs.takeWhile Char.isDigit)) := by
  intro cs
  induction cs with
  | nil =>
    intro accu ha
    constructor
    · simp only [sjLoop, List.takeWhile_nil, natValFrom, List.foldl_nil]
      simp [Nat.not_lt.2 ha]
    · intro _
      simp [sjLoop, natValFrom]
  | cons c t ih =>
    intro accu ha
    by_cases hc : c.isDigit = true
    · rw [List.takeWhile_cons_of_pos hc, natValFrom_cons]
      have hd : digitVal c ≤ 9 := digitVal_le c hc
      simp only [sjLoop]
      rw [if_pos hc]
      simp only [Bool.false_or]
      by_cases h10 : accu ≤ L / 10
      · have hnw : accu * 10 + digitVal c < U64 := by
          have hm : (L / 10) * 10 ≤ L := Nat.div_mul_le_self L 10
          have : accu * 10 ≤ (L / 10) * 10 := by omega
          simp only [U64]
          omega
        have hmod : (accu * 10 + digitVal c) % U64 = accu * 10 + digitVal c :=
          Nat.mod_eq_of_lt hnw
        rw [show (decide (accu > L / 10)) = false from by simp; omega]
        simp only [Bool.false_or]
        rw [hmod]
        by_cases hle : accu * 10 + digitVal c ≤ L
        · rw [show (decide (accu * 10 + digitVal c > L)) = false from by simp; omega]
          exact ih (accu * 10 + digitVal c) hle
        · rw [show (decide (accu * 10 + digitVal c > L)) = true from by simp; omega]
          have hv : L < natValFrom (accu * 10 + digitVal c) (t.takeWhile Char.isDigit) :=
            lt_of_lt_of_le (by omega) (natValFrom_ge _ _)
          constructor
          · rw [sjLoop_true]
            simp [hv]
          · intro hcontra
            omega
      · have hm : 10 * (L / 10) + L % 10 = L := Nat.div_add_mod L 10
        have hmod10 : L % 10 < 10 := Nat.mod_lt _ (by omega)
        have hgt : L < accu * 10 := by omega
        rw [show (decide (accu > L / 10)) = true from by simp; omega]
        simp only [Bool.true_or]
        have hv : L < natValFrom (accu * 10 + digitVal c) (t.takeWhile Char.isDigit) :=
          lt_of_lt_of_le (by omega) (natValFrom_ge _ _)
        constructor
        · rw [sjLoop_true]
          simp [hv]
        · intro hcontra
          omega
    · rw [List.takeWhile_cons_of_neg hc]
      simp only [sjLoop]
      rw [if_neg hc]
      constructor
      · simp only [natValFrom, List.foldl_nil]
        simp [Nat.not_lt.2 ha]
      · intro _
        simp [natValFrom]
/-- C9: strtojint is total and clamps on overflow.  For every input: the
returned value lies in [LONG_MIN, LONG_MAX]; when no digit follows the
optional sign it returns 0, errno EINVAL, and the original start of the
string as end pointer; when digits are present and their value fits the
range of the current sign it returns the exact signed base-10 value with
errno untouched; when the magnitude exceeds the range it returns the extreme
of the appropriate sign with errno ERANGE; the end pointer is always the
first unconsumed character after the digits. -/
theorem strtojint_characterization (s : List Char) :
    ((-(2 ^ 63) : Int) ≤ (strtojint s).1 ∧ (strtojint s).1 ≤ 2 ^ 63 - 1) ∧
    (((sjSign s).2.head?.map Char.isDigit).getD false = false →
      strtojint s = (0, s, some CErr.einval)) ∧
    (((sjSign s).2.head?.map Char.isDigit).getD false = true →
      (decVal (sjSign s).2 ≤ (if (sjSign s).1 then NEG_LIMIT else JSON_INT_MAX) →
        strtojint s =
          ((if (sjSign s).1 then -(decVal (sjSign s).2 : Int)
            else (decVal (sjSign s).2 : Int)),
           (sjSign s).2.dropWhile Char.isDigit, none)) ∧
      ((if (sjSign s).1 then NEG_LIMIT else JSON_INT_MAX) < decVal (sjSign s).2 →
        strtojint s =
          ((if (sjSign s).1 then (-(2 ^ 63) : Int) else ((2 ^ 63 - 1 : Int))),
           (sjSign s).2.dropWhile Char.isDigit, some CErr.erange))) := by
  rcases hsg : sjSign s with ⟨neg, cp⟩
  simp only [strtojint, hsg]
  cases neg with
  | true =>
    simp only [if_true]
    have hL : NEG_LIMIT ≤ 2 ^ 63 := by simp [NEG_LIMIT]
    by_cases hd : ((cp.head?.map Char.isDigit).getD false) = true
    · rw [if_pos hd]
      have hspec := sjLoop_spec NEG_LIMIT hL cp 0 (by simp [NEG_LIMIT])
      have hrest := sjLoop_rest NEG_LIMIT cp 0 false
      have hdec : decVal cp = natValFrom 0 (cp.takeWhile Char.isDigit) := rfl
      by_cases hle : decVal cp ≤ NEG_LIMIT
      · have hovf : (sjLoop NEG_LIMIT cp 0 false).2.1 = false := by
          rw [hspec.1]
          simp only [decide_eq_false_iff_not, Nat.not_lt]
          rw [← hdec]; exact hle
        have hval : (sjLoop NEG_LIMIT cp 0 false).1 = decVal cp :=
          (hspec.2 (by rw [← hdec]; exact hle)).trans hdec.symm
        refine ⟨?_, ?_, ?_⟩
        · rw [hovf, hval]
          simp only [Bool.false_eq_true, if_false]
          by_cases h0 : decVal cp = 0
          · simp [h0, NEG_LIMIT]
          · simp only [Bool.true_and]
            rw [if_pos (by simpa using h0)]
            have : ((decVal cp - 1 : Nat) : Int) = (decVal cp : Int) - 1 := by
              omega
            simp only [NEG_LIMIT] at hle
            constructor <;> omega
        · intro hcon; rw [hcon] at hd; simp at hd
        · intro _
          refine ⟨?_, ?_⟩
          · intro _
            rw [hovf, hval, hrest]
            simp only [Bool.false_eq_true, if_false]
            by_cases h0 : decVal cp = 0
            · simp [h0]
            · simp only [Bool.true_and]
              rw [if_pos (by simpa using h0)]
              have : ((decVal cp - 1 : Nat) : Int) = (decVal cp : Int) - 1 := by
                omega
              rw [Prod.mk.injEq]
              constructor
              · omega
              · simp
          · intro hgt
            exfalso; omega
      · refine ⟨?_, ?_, ?_⟩
        · have hovf : (sjLoop NEG_LIMIT cp 0 false).2.1 = true := by
            rw [hspec.1]
            simp only [decide_eq_true_eq]
            rw [← hdec]; omega
          rw [hovf]
          simp only [if_true, NEG_LIMIT]
          norm_num
        · intro hcon; rw [hcon] at hd; simp at hd
        · intro _
          refine ⟨?_, ?_⟩
          · intro hcontra; exfalso; omega
          · intro _
            have hovf : (sjLoop NEG_LIMIT cp 0 false).2.1 = true := by
              rw [hspec.1]
              simp only [decide_eq_true_eq]
              rw [← hdec]; omega
            rw [hovf, hrest]
            simp only [if_true]
            rw [Prod.mk.injEq]
            constructor
            · have : (NEG_LIMIT : Nat) ≠ 0 := by simp [NEG_LIMIT]
              simp only [Bool.true_and]
              rw [if_pos (by simpa using this)]
              simp only [NEG_LIMIT]
              norm_num
            · simp
    · rw [if_neg hd]
      refine ⟨by norm_num, fun _ => rfl, ?_⟩
      intro hcon; rw [hcon] at hd; simp at hd
  | false =>
    simp only [Bool.false_eq_true, if_false]
    have hL : JSON_INT_MAX ≤ 2 ^ 63 := by simp [JSON_INT_MAX]
    by_cases hd : ((cp.head?.map Char.isDigit).getD false) = true
    · rw [if_pos hd]
      have hspec := sjLoop_spec JSON_INT_MAX hL cp 0 (by simp [JSON_INT_MAX])
      have hrest := sjLoop_rest JSON_INT_MAX cp 0 false
      have hdec : decVal cp = natValFrom 0 (cp.takeWhile Char.isDigit) := rfl
      by_cases hle : decVal cp ≤ JSON_INT_MAX
      · have hovf : (sjLoop JSON_INT_MAX cp 0 false).2.1 = false := by
          rw [hspec.1]
          simp only [decide_eq_false_iff_not, Nat.not_lt]
          rw [← hdec]; exact hle
        have hval : (sjLoop JSON_INT_MAX cp 0 false).1 = decVal cp :=
          (hspec.2 (by rw [← hdec]; exact hle)).trans hdec.symm
        refine ⟨?_, ?_, ?_⟩
        · rw [hovf, hval]
          simp only [Bool.false_eq_true, if_false, Bool.false_and]
          simp only [JSON_INT_MAX] at hle
          constructor <;> omega
        · intro hcon; rw [hcon] at hd; simp at hd
        · intro _
          refine ⟨fun _ => ?_, fun hgt => absurd hgt (by omega)⟩
          rw [hovf, hval, hrest]
          simp
      · refine ⟨?_, ?_, ?_⟩
        · have hovf : (sjLoop JSON_INT_MAX cp 0 false).2.1 = true := by
            rw [hspec.1]
            simp only [decide_eq_true_eq]
            rw [← hdec]; omega
          rw [hovf]
          simp only [if_true, JSON_INT_MAX, Bool.false_and]
          norm_num
        · intro hcon; rw [hcon] at hd; simp at hd
        · intro _
          refine ⟨fun hcontra => absurd hcontra (by omega), fun _ => ?_⟩
          have hovf : (sjLoop JSON_INT_MAX cp 0 false).2.1 = true := by
            rw [hspec.1]
            simp only [decide_eq_true_eq]
            rw [← hdec]; omega
          rw [hovf, hrest]
          simp only [if_true, Bool.false_and, Bool.false_eq_true, if_false]
          rw [Prod.mk.injEq]
          constructor
          · simp only [JSON_INT_MAX]
            norm_num
          · simp
    · rw [if_neg hd]
      refine ⟨by norm_num, fun _ => rfl, ?_⟩
      intro hcon; rw [hcon] at hd; simp at hd
/-- Witness for C9 at three concrete inputs: an exact parse with trailing
garbage, a negative overflow, and a digit-free string. -/
theorem strtojint_characterization_witness :
    strtojint ("123;".data) = (123, [';'], none) ∧
    strtojint ("-9223372036854775809".data) = (-(2 ^ 63), [], some CErr.erange) ∧
    strtojint ("abc".data) = (0, "abc".data, some CErr.einval) := by
  refine ⟨?_, ?_, ?_⟩
  · exact (((strtojint_characterization ("123;".data)).2.2 (by decide)).1
      (by decide)).trans (by decide)
  · exact (((strtojint_characterization ("-9223372036854775809".data)).2.2
      (by decide)).2 (by decide)).trans (by decide)
  · exact (strtojint_characterization ("abc".data)).2.1 (by decide)


theorem fracLoop_rest : ∀ (r : List Char) (dw acc : Nat),
    (fracLoop r dw acc).2 = r.dropWhile Char.isDigit := by
  intro r
  induction r with
  | nil => intro dw acc; simp [fracLoop, List.dropWhile]
  | cons c t ih =>
    intro dw acc
    by_cases hc : c.isDigit = true
    · rw [List.dropWhile_cons_of_pos hc]
      simp only [fracLoop]
      rw [if_pos hc]
      exact ih _ _
    · rw [List.dropWhile_cons_of_neg hc]
      simp only [fracLoop]
      rw [if_neg hc]

theorem convert_isSome_eq_spec (cs : List Char) :
    (convert_ascii_time cs).isSome = specGpsTimeFormat cs := by
  simp only [convert_ascii_time, specGpsTimeFormat, specFracOk]
  cases hsp : strptime_gps cs with
  | none => rfl
  | some pr =>
    obtain ⟨gd, ep⟩ := pr
    dsimp only []
    by_cases hdot : ep.head? = some '.'
    · rw [if_pos hdot, if_pos hdot, fracLoop_rest]
      split_ifs with h <;> simp [h]
    · rw [if_neg hdot, if_neg hdot]
      split_ifs with h <;> simp_all

theorem process_tpv_bad_time (jr : JsonRec) (rtime : Nat) (s : DState)
    (gt : List Char) (h1 : jr.tpvTime = some gt)
    (h2 : 2 ≤ jr.tpvMode.getD 0) (h3 : s.pf_toff = false)
    (h4 : convert_ascii_time gt = none) :
    (process_tpv jr rtime s).ibt_stamp = s.ibt_stamp ∧
    (process_tpv jr rtime s).fl_ibt = false ∧
    (process_tpv jr rtime s).tc_breply = s.tc_breply + 1 := by
  simp only [process_tpv, h1]
  rw [if_neg (by omega)]
  simp only [h3, Bool.false_eq_true, if_false, save_ltc_prim, h4]
  simp

/-- C3: convert_ascii_time returns an explicit validity indicator.  It
returns a converted stamp (the C true result writing through the out
pointer) exactly when the input matches the %Y-%m-%dT%H:%M:%S form,
optionally followed by a dot and decimal digits, terminated by Z and nothing
else; on every other input the result is none (the C false result), and in
that case process_tpv leaves the stored timestamp unchanged, drops the
validity flag and counts a bad reply. -/
theorem convert_ascii_time_validity :
    (∀ cs : List Char, (convert_ascii_time cs).isSome = specGpsTimeFormat cs) ∧
    (∀ (jr : JsonRec) (rtime : Nat) (s : DState) (gt : List Char),
      jr.tpvTime = some gt → 2 ≤ jr.tpvMode.getD 0 → s.pf_toff = false →
      convert_ascii_time gt = none →
      (process_tpv jr rtime s).ibt_stamp = s.ibt_stamp ∧
      (process_tpv jr rtime s).fl_ibt = false ∧
      (process_tpv jr rtime s).tc_breply = s.tc_breply + 1) :=
  ⟨convert_isSome_eq_spec,
   fun jr rtime s gt h1 h2 h3 h4 => process_tpv_bad_time jr rtime s gt h1 h2 h3 h4⟩

/-- Witness for C3: a valid timestamp with fraction recognized on both
sides, and a TPV record whose broken time string leaves the stored stamp
untouched while counting a bad reply. -/
theorem convert_ascii_time_validity_witness :
    ((convert_ascii_time ("2021-01-02T03:04:05.25Z".data)).isSome
      = specGpsTimeFormat ("2021-01-02T03:04:05.25Z".data)) ∧
    (process_tpv tpvWitJson 5 baseState).ibt_stamp = baseState.ibt_stamp ∧
    (process_tpv tpvWitJson 5 baseState).fl_ibt = false ∧
    (process_tpv tpvWitJson 5 baseState).tc_breply = baseState.tc_breply + 1 :=
  ⟨convert_ascii_time_validity.1 ("2021-01-02T03:04:05.25Z".data),
   convert_ascii_time_validity.2 tpvWitJson 5 baseState ("bogus".data)
     rfl (by decide) rfl (by decide)⟩

end GpsdJson
